import Mathlib

/-!
# kblog: the MetaWeblog adapter

A shallow embedding of `src/metaweblog.cpp` (the MetaWeblog protocol adapter of
the kblog library) together with the small part of Qt and kdelibs it relies on:
`QVariant` (the dynamically typed XML-RPC payload), `QMap`, `QDateTime` and
`KDateTime`.

Conventions of the embedding.

* The adapter object (`MetaWeblog` with its d-pointer `MetaWeblogPrivate`) is a
  record.  Postings and media objects are owned by the caller and reached through
  pointers: a pointer is `Option Nat` (`none` is the null pointer) and the
  objects live in the heaps `postings` and `medias` of the record.
* `emit` appends a signal to the log `emitted`; `mXmlRpcClient->call` appends a
  `RemoteCall` to the log `calls`.
* A slot returns `Option MetaWeblog`: `none` stands for undefined behaviour of
  the C++ code (indexing an empty `QList`, dereferencing a null pointer).
* `unsigned int` counters are natural numbers reduced modulo `2 ^ 32`.
* `i18n` is the identity on the English message.
-/

namespace KBlog

/-! ## Date and time values -/

/-- A `QDateTime`: default constructed (`null`), set but not a valid date-time
(`invalid`), or a valid date-time given by its clock reading in milliseconds. -/
inductive QDateTime where
  | null
  | invalid
  | valid (clock : Int)
deriving DecidableEq, Repr

/-- The method `QDateTime::isNull`. -/
def QDateTime.isNull : QDateTime → Bool
  | .null => true
  | _ => false

/-- The method `QDateTime::isValid`. -/
def QDateTime.isValid : QDateTime → Bool
  | .valid _ => true
  | _ => false

/-- The time specifications of `KDateTime::Spec` that do not depend on a time
zone database: UTC and a fixed offset from UTC in seconds. -/
inductive KSpec where
  | UTC
  | OffsetFromUTC (secs : Int)
deriving DecidableEq, Repr

/-- A `KDateTime`: a date-time together with the specification it is expressed in. -/
structure KDateTime where
  dt : QDateTime
  spec : KSpec
deriving DecidableEq, Repr

/-- The default constructor `KDateTime()`: a null date-time. -/
def KDateTime.default : KDateTime := ⟨.null, .UTC⟩

/-- The constructor `KDateTime( dt, KDateTime::UTC )`: the clock reading of `dt`
taken as UTC. -/
def KDateTime.ofUTC (dt : QDateTime) : KDateTime := ⟨dt, .UTC⟩

/-- The method `KDateTime::isValid`. -/
def KDateTime.isValid (k : KDateTime) : Bool := k.dt.isValid

/-- The method `KDateTime::isNull`. -/
def KDateTime.isNull (k : KDateTime) : Bool := k.dt.isNull

/-- The method `KDateTime::toUtc`: an invalid value gives `KDateTime()`, a valid
one is re-expressed in UTC. -/
def KDateTime.toUtc (k : KDateTime) : KDateTime :=
  match k.dt, k.spec with
  | .valid c, .UTC => ⟨.valid c, .UTC⟩
  | .valid c, .OffsetFromUTC s => ⟨.valid (c - 1000 * s), .UTC⟩
  | _, _ => KDateTime.default

/-- The method `KDateTime::dateTime`. -/
def KDateTime.dateTime (k : KDateTime) : QDateTime := k.dt

/-! ## QMap -/

/-- A `QMap<Key, T>` as the list of its entries in iteration order.  A map built
with `QMap.insert` from the empty map has strictly ascending keys. -/
abbrev QMap (κ : Type) (α : Type) := List (κ × α)

/-- The UTF-16 code units of a character, the unit of comparison of `QString`. -/
def utf16Units (c : Char) : List Nat :=
  if c.toNat < 65536 then [c.toNat]
  else [55296 + (c.toNat - 65536) / 1024, 56320 + (c.toNat - 65536) % 1024]

/-- Lexicographic comparison of two sequences of code units. -/
def lexLess : List Nat → List Nat → Bool
  | _, [] => false
  | [], _ :: _ => true
  | a :: as, b :: bs => if a < b then true else if b < a then false else lexLess as bs

/-- The `operator<` of a key type, by which a `QMap` orders its entries. -/
class QMapKey (κ : Type) where
  lessThan : κ → κ → Bool

/-- Keys of type `unsigned int`. -/
instance instQMapKeyNat : QMapKey Nat := ⟨fun a b => decide (a < b)⟩

/-- Keys of type `QString`: compared by UTF-16 code units. -/
instance instQMapKeyString : QMapKey String :=
  ⟨fun a b => lexLess (a.data.flatMap utf16Units) (b.data.flatMap utf16Units)⟩

/-- The method `QMap::value( key )` and the const `operator[]`: the value stored
under `key`, or the default-constructed value `dflt` when there is none. -/
def QMap.value {κ α : Type} [DecidableEq κ] (m : QMap κ α) (key : κ) (dflt : α) : α :=
  match m with
  | [] => dflt
  | (k, v) :: rest => if k = key then v else QMap.value rest key dflt

/-- The method `QMap::contains`. -/
def QMap.contains {κ α : Type} [DecidableEq κ] (m : QMap κ α) (key : κ) : Bool :=
  m.any (fun e => decide (e.1 = key))

/-- The method `QMap::keys`: all keys in ascending (iteration) order. -/
def QMap.keys {κ α : Type} (m : QMap κ α) : List κ := m.map Prod.fst

/-- The method `QMap::insert`: replaces the value of an existing key, otherwise
adds the entry at its place in key order. -/
def QMap.insert {κ α : Type} [DecidableEq κ] [QMapKey κ]
    (m : QMap κ α) (key : κ) (v : α) : QMap κ α :=
  match m with
  | [] => [(key, v)]
  | (k, w) :: rest =>
    if k = key then (key, v) :: rest
    else if QMapKey.lessThan key k then (key, v) :: (k, w) :: rest
    else (k, w) :: QMap.insert rest key v

/-- The method `QMap::remove`. -/
def QMap.remove {κ α : Type} [DecidableEq κ] (m : QMap κ α) (key : κ) : QMap κ α :=
  m.filter (fun e => !decide (e.1 = key))

/-- The non-const `operator[]` read as an rvalue: returns the value stored under
`key`; when the key is absent a default-constructed value is inserted first. -/
def QMap.index {κ α : Type} [DecidableEq κ] [QMapKey κ]
    (m : QMap κ α) (key : κ) (dflt : α) : α × QMap κ α :=
  if QMap.contains m key then (QMap.value m key dflt, m)
  else (dflt, QMap.insert m key dflt)

/-! ## QVariant -/

/-- The values of `QVariant::Type` that occur in XML-RPC traffic. -/
inductive QVariantType where
  | Invalid | Bool | Int | UInt | Map | List | String | StringList | ByteArray | DateTime
deriving DecidableEq, Repr

/-- The numeric value of a `QVariant::Type` enumerator (Qt 4). -/
def QVariantType.toNat : QVariantType → Nat
  | .Invalid => 0 | .Bool => 1 | .Int => 2 | .UInt => 3 | .Map => 8 | .List => 9
  | .String => 10 | .StringList => 11 | .ByteArray => 12 | .DateTime => 16

/-- A `QVariant`, the dynamically typed value of an XML-RPC payload.  Floating
point numbers are left out of the embedding. -/
inductive QVariant where
  | invalid
  | bool (b : Bool)
  | int (n : Int)
  | uint (n : Nat)
  | string (s : String)
  | stringList (l : List String)
  | byteArray (bytes : List Nat)
  | dateTime (dt : QDateTime)
  | list (l : List QVariant)
  | map (m : List (String × QVariant))

/-- Text conversions of Qt that the adapter reaches only through `QVariant`
accessors and that are kept abstract: ISO formatting and parsing of date-times
and the decoding of a byte array as text. -/
structure QtConv where
  dateTimeToString : QDateTime → String
  dateTimeFromString : String → QDateTime
  byteArrayToString : List Nat → String

/-- The method `QVariant::type`. -/
def QVariant.type : QVariant → QVariantType
  | .invalid => .Invalid
  | .bool _ => .Bool
  | .int _ => .Int
  | .uint _ => .UInt
  | .string _ => .String
  | .stringList _ => .StringList
  | .byteArray _ => .ByteArray
  | .dateTime _ => .DateTime
  | .list _ => .List
  | .map _ => .Map

/-- The method `QVariant::toString`: the text of a String, Bool, Int, UInt,
ByteArray or DateTime, the element of a one-element StringList, and the empty
string for every other value. -/
def QVariant.toString (cv : QtConv) : QVariant → String
  | .string s => s
  | .bool b => if b then "true" else "false"
  | .int n => ToString.toString n
  | .uint n => ToString.toString n
  | .stringList [s] => s
  | .byteArray b => cv.byteArrayToString b
  | .dateTime dt => cv.dateTimeToString dt
  | _ => ""

/-- The method `QVariant::toMap`: the map of a Map, the empty map otherwise. -/
def QVariant.toMap : QVariant → QMap String QVariant
  | .map m => m
  | _ => []

/-- The method `QVariant::toList`: the list of a List, the strings of a
StringList, the empty list otherwise. -/
def QVariant.toList : QVariant → List QVariant
  | .list l => l
  | .stringList l => l.map QVariant.string
  | _ => []

/-- The method `QVariant::toStringList`: the list of a StringList, the one
string of a String, the elements of a List converted with `toString`, the empty
list otherwise. -/
def QVariant.toStringList (cv : QtConv) : QVariant → List String
  | .stringList l => l
  | .string s => [s]
  | .list l => l.map (QVariant.toString cv)
  | _ => []

/-- The method `QVariant::toDateTime`: the value of a DateTime, the parse of a
String, the null date-time otherwise. -/
def QVariant.toDateTime (cv : QtConv) : QVariant → QDateTime
  | .dateTime dt => dt
  | .string s => cv.dateTimeFromString s
  | _ => .null

/-! ## Domain records -/

/-- The enumeration `Blog::ErrorType` of `src/blog.h`. -/
inductive ErrorType where
  | XmlRpc | Atom | ParsingError | AuthenticationError | NotSupported | Other
deriving DecidableEq, Repr

/-- The enumeration `Status` of a posting (`src/src/blogpost.h`). -/
inductive Status where
  | New | Fetched | Created | Modified | Removed | Error
deriving DecidableEq, Repr

/-- Modelled from the spec: the class `BlogPosting` (`blogposting.h` is not
among the sources); the attributes of a post that `metaweblog.cpp` reads or
writes through its getters and setters, with the status and error of §3. -/
structure BlogPosting where
  mPrivate : Bool
  mPostingId : String
  mTitle : String
  mContent : String
  mCategories : List String
  mError : String
  mStatus : Status
  mCreationDateTime : KDateTime
  mModificationDateTime : KDateTime
deriving DecidableEq, Repr

/-- The status of a media object (§3 of the specification). -/
inductive MediaStatus where
  | New | Created | Error
deriving DecidableEq, Repr

/-- Modelled from the spec: the class `BlogMedia` (`blogmedia.h` is not among
the sources): name, mimetype, data, the url assigned by the server and status. -/
structure BlogMedia where
  mName : String
  mMimetype : String
  mData : List Nat
  mUrl : String
  mStatus : MediaStatus
deriving DecidableEq, Repr

/-- The default constructor of `BlogPosting`: a public posting with status New,
every text empty and both date-times null. -/
def BlogPosting.default : BlogPosting :=
  { mPrivate := false, mPostingId := "", mTitle := "", mContent := "",
    mCategories := [], mError := "", mStatus := .New,
    mCreationDateTime := KDateTime.default, mModificationDateTime := KDateTime.default }

/-! ## The adapter object -/

/-- A `BlogPosting*`: `none` is the null pointer, `some a` the object at address `a`. -/
abbrev PostingPtr := Option Nat

/-- A `BlogMedia*`: `none` is the null pointer, `some a` the object at address `a`. -/
abbrev MediaPtr := Option Nat

/-- The signals of `Blog` and `MetaWeblog` that `metaweblog.cpp` emits. -/
inductive Signal where
  | listedCategories (categories : List (QMap String String))
  | listedRecentPostings (postings : List BlogPosting)
  | createdPosting (posting : PostingPtr)
  | fetchedPosting (posting : PostingPtr)
  | modifiedPosting (posting : PostingPtr)
  | createdMedia (media : MediaPtr)
  | error (type : ErrorType) (errorMessage : String) (posting : PostingPtr)
deriving DecidableEq, Repr

/-- The result slots a remote call can be connected to; the fault slot of every
call is `slotError`. -/
inductive Slot where
  | slotListRecentPostings | slotListCategories | slotFetchPosting
  | slotModifyPosting | slotCreatePosting | slotCreateMedia
deriving DecidableEq, Repr

/-- One invocation of `mXmlRpcClient->call`: method name, argument list, the
slot that receives the result, and the id handed back to the slots. -/
structure RemoteCall where
  method : String
  args : List QVariant
  resultSlot : Slot
  id : QVariant

/-- The adapter.  Fields `blogId`, `username`, `password` are the connection
settings read through `Blog`.  Modelled from the spec: `metaweblog_p.h` is not
among the sources; the members `mCallCounter`, `mCallMap`, `mCallMediaCounter`
and `mCallMediaMap` of `MetaWeblogPrivate` are the token counters (unsigned
int) and the pending-call tables of §3.  The remaining fields are the heaps of
caller-owned objects and the two output logs. -/
structure MetaWeblog where
  blogId : String
  username : String
  password : String
  mCallCounter : Nat
  mCallMap : QMap Nat PostingPtr
  mCallMediaCounter : Nat
  mCallMediaMap : QMap Nat MediaPtr
  postings : Nat → BlogPosting
  medias : Nat → BlogMedia
  emitted : List Signal
  calls : List RemoteCall

/-- The statement `emit q->signal( ... )`. -/
def MetaWeblog.emit (q : MetaWeblog) (s : Signal) : MetaWeblog :=
  { q with emitted := q.emitted ++ [s] }

/-- The statement `d->mXmlRpcClient->call( ... )`. -/
def MetaWeblog.call (q : MetaWeblog) (c : RemoteCall) : MetaWeblog :=
  { q with calls := q.calls ++ [c] }

/-- Writes the posting object at address `a`. -/
def MetaWeblog.setPosting (q : MetaWeblog) (a : Nat) (p : BlogPosting) : MetaWeblog :=
  { q with postings := fun b => if b = a then p else q.postings b }

/-- Writes the media object at address `a`. -/
def MetaWeblog.setMedia (q : MetaWeblog) (a : Nat) (m : BlogMedia) : MetaWeblog :=
  { q with medias := fun b => if b = a then m else q.medias b }

/-- The post-increment of an `unsigned int`. -/
def uintSucc (n : Nat) : Nat := (n + 1) % 2 ^ 32

/-- The function `MetaWeblogPrivate::defaultArgs`. -/
def defaultArgs (q : MetaWeblog) (id : String) : List QVariant :=
  (if id ≠ "" then [QVariant.string id] else [])
    ++ [QVariant.string q.username, QVariant.string q.password]

/-! ## Requests -/

/-- The method `MetaWeblog::listRecentPostings`. -/
def listRecentPostings (q : MetaWeblog) (number : Int) : MetaWeblog :=
  let args := defaultArgs q q.blogId ++ [QVariant.int number]
  q.call ⟨"metaWeblog.getRecentPosts", args, .slotListRecentPostings, QVariant.int number⟩

/-- The method `MetaWeblog::listCategories`. -/
def listCategories (q : MetaWeblog) : MetaWeblog :=
  let args := defaultArgs q q.blogId
  q.call ⟨"metaWeblog.getCategories", args, .slotListCategories, QVariant.invalid⟩

/-- The method `MetaWeblog::fetchPosting`. -/
def fetchPosting (q : MetaWeblog) (posting : PostingPtr) : MetaWeblog :=
  match posting with
  | none => q.emit (.error .Other "Posting is a null pointer." none)
  | some a =>
    let i := q.mCallCounter
    let q1 := { q with mCallCounter := uintSucc q.mCallCounter }
    let q2 := { q1 with mCallMap := QMap.insert q1.mCallMap i posting }
    let args := defaultArgs q2 (q2.postings a).mPostingId
    q2.call ⟨"metaWeblog.getPost", args, .slotFetchPosting, QVariant.uint i⟩

/-- The method `MetaWeblog::modifyPosting`. -/
def modifyPosting (q : MetaWeblog) (posting : PostingPtr) : MetaWeblog :=
  match posting with
  | none => q.emit (.error .Other "Posting is a null pointer." none)
  | some a =>
    let i := q.mCallCounter
    let q1 := { q with mCallCounter := uintSucc q.mCallCounter }
    let q2 := { q1 with mCallMap := QMap.insert q1.mCallMap i posting }
    let p := q2.postings a
    let args := defaultArgs q2 p.mPostingId
    let map : QMap String QVariant := []
    let map := QMap.insert map "categories" (QVariant.stringList p.mCategories)
    let map := QMap.insert map "description" (QVariant.string p.mContent)
    let map := QMap.insert map "title" (QVariant.string p.mTitle)
    let map := QMap.insert map "lastModified"
      (QVariant.dateTime p.mModificationDateTime.toUtc.dateTime)
    let args := args ++ [QVariant.map map]
    let args := args ++ [QVariant.bool (!p.mPrivate)]
    q2.call ⟨"metaWeblog.editPost", args, .slotModifyPosting, QVariant.uint i⟩

/-- The method `MetaWeblog::createPosting`. -/
def createPosting (q : MetaWeblog) (posting : PostingPtr) : MetaWeblog :=
  match posting with
  | none => q.emit (.error .Other "Posting is a null pointer." none)
  | some a =>
    let i := q.mCallCounter
    let q1 := { q with mCallCounter := uintSucc q.mCallCounter }
    let q2 := { q1 with mCallMap := QMap.insert q1.mCallMap i posting }
    let p := q2.postings a
    let args := defaultArgs q2 q2.blogId
    let map : QMap String QVariant := []
    let map := QMap.insert map "categories" (QVariant.stringList p.mCategories)
    let map := QMap.insert map "description" (QVariant.string p.mContent)
    let map := QMap.insert map "title" (QVariant.string p.mTitle)
    let map := QMap.insert map "dateCreated"
      (QVariant.dateTime p.mCreationDateTime.toUtc.dateTime)
    let args := args ++ [QVariant.map map]
    let args := args ++ [QVariant.bool (!p.mPrivate)]
    q2.call ⟨"metaWeblog.newPost", args, .slotCreatePosting, QVariant.uint i⟩

/-- The method `MetaWeblog::createMedia`. -/
def createMedia (q : MetaWeblog) (media : MediaPtr) : MetaWeblog :=
  match media with
  | none => q.emit (.error .Other "Media is a null pointer." none)
  | some a =>
    let i := q.mCallMediaCounter
    let q1 := { q with mCallMediaCounter := uintSucc q.mCallMediaCounter }
    let q2 := { q1 with mCallMediaMap := QMap.insert q1.mCallMediaMap i media }
    let m := q2.medias a
    let args := defaultArgs q2 q2.blogId
    let map : QMap String QVariant := []
    let map := QMap.insert map "name" (QVariant.string m.mName)
    let map := QMap.insert map "type" (QVariant.string m.mMimetype)
    let map := QMap.insert map "bits" (QVariant.byteArray m.mData)
    let args := args ++ [QVariant.map map]
    q2.call ⟨"metaWeblog.newMediaObject", args, .slotCreateMedia, QVariant.uint i⟩

/-! ## Response handling -/

/-- The function `MetaWeblogPrivate::readPostingFromMap`.  The argument `post`
is the object the pointer refers to (`none` for the null pointer); the result
is the returned flag with the object after the call. -/
def readPostingFromMap (cv : QtConv) (post : Option BlogPosting)
    (postInfo : QMap String QVariant) : Bool × Option BlogPosting :=
  match post with
  | none => (false, none)
  | some p =>
    let dt := KDateTime.ofUTC ((QMap.value postInfo "dateCreated" QVariant.invalid).toDateTime cv)
    let p := if dt.isValid && !dt.isNull then { p with mCreationDateTime := dt } else p
    let dt := KDateTime.ofUTC ((QMap.value postInfo "lastModified" QVariant.invalid).toDateTime cv)
    let p := if dt.isValid && !dt.isNull then { p with mModificationDateTime := dt } else p
    let p := { p with mPostingId := (QMap.value postInfo "postid" QVariant.invalid).toString cv }
    let title := (QMap.value postInfo "title" QVariant.invalid).toString cv
    let description := (QMap.value postInfo "description" QVariant.invalid).toString cv
    let categories := (QMap.value postInfo "categories" QVariant.invalid).toStringList cv
    let p := { p with mTitle := title }
    let p := { p with mContent := description }
    let p := if !categories.isEmpty then { p with mCategories := categories } else p
    (true, some p)

/-- The body of the first loop of `slotListCategories` (the payload is a Map):
the category entry for the outer key `key`. -/
def categoryOfKey (cv : QtConv) (serverMap : QMap String QVariant) (key : String) :
    QMap String String :=
  let category : QMap String String := []
  let serverCategory := (QMap.value serverMap key QVariant.invalid).toMap
  let category := QMap.insert category "name" key
  let category := QMap.insert category "description"
    ((QMap.value serverCategory "description" QVariant.invalid).toString cv)
  let category := QMap.insert category "htmlUrl"
    ((QMap.value serverCategory "htmlUrl" QVariant.invalid).toString cv)
  let category := QMap.insert category "rssUrl"
    ((QMap.value serverCategory "rssUrl" QVariant.invalid).toString cv)
  category

/-- The body of the second loop of `slotListCategories` (the payload is a List):
the category entry for the list element `it`. -/
def categoryOfElement (cv : QtConv) (it : QVariant) : QMap String String :=
  let category : QMap String String := []
  let serverCategory := it.toMap
  let category := QMap.insert category "name"
    ((QMap.value serverCategory "categoryName" QVariant.invalid).toString cv)
  let category := QMap.insert category "description"
    ((QMap.value serverCategory "description" QVariant.invalid).toString cv)
  let category := QMap.insert category "htmlUrl"
    ((QMap.value serverCategory "htmlUrl" QVariant.invalid).toString cv)
  let category := QMap.insert category "rssUrl"
    ((QMap.value serverCategory "rssUrl" QVariant.invalid).toString cv)
  category

/-- The slot `MetaWeblogPrivate::slotListCategories`.  The id is unused. -/
def slotListCategories (cv : QtConv) (q : MetaWeblog) (result : List QVariant) :
    Option MetaWeblog :=
  match result with
  | [] => none
  | r0 :: _ =>
    let categoriesList : List (QMap String String) := []
    let (categoriesList, q) :=
      if r0.type ≠ .Map ∧ r0.type ≠ .List then
        (categoriesList,
          q.emit (.error .ParsingError
            "Could not list categories out of the result from the server." none))
      else if r0.type = .Map then
        let serverMap := r0.toMap
        let serverKeys := QMap.keys serverMap
        let categoriesList := categoriesList ++ serverKeys.map (categoryOfKey cv serverMap)
        (categoriesList, q.emit (.listedCategories categoriesList))
      else (categoriesList, q)
    if r0.type = .List then
      let serverList := r0.toList
      let categoriesList := categoriesList ++ serverList.map (categoryOfElement cv)
      some (q.emit (.listedCategories categoriesList))
    else some q

/-- The loop of `slotListRecentPostings` over the received list: every element
is read into a fresh posting, and the loop stops when the decremented count
reaches zero. -/
def listRecentLoop (cv : QtConv) (postReceived : List QVariant) (count : Int)
    (fetchedPostingList : List BlogPosting) (q : MetaWeblog) :
    List BlogPosting × MetaWeblog :=
  match postReceived with
  | [] => (fetchedPostingList, q)
  | it :: rest =>
    let postInfo := it.toMap
    let (fetchedPostingList, q) :=
      match readPostingFromMap cv (some BlogPosting.default) postInfo with
      | (true, some posting) => (fetchedPostingList ++ [posting], q)
      | _ => (fetchedPostingList, q.emit (.error .ParsingError "Could not read posting." none))
    let count := count - 1
    if count = 0 then (fetchedPostingList, q)
    else listRecentLoop cv rest count fetchedPostingList q

/-- The slot `MetaWeblogPrivate::slotListRecentPostings`; `id` is the value of
`id.toInt()`, the number the request was tagged with. -/
def slotListRecentPostings (cv : QtConv) (q : MetaWeblog) (result : List QVariant)
    (id : Int) : Option MetaWeblog :=
  let count := id
  let fetchedPostingList : List BlogPosting := []
  match result with
  | [] => none
  | r0 :: _ =>
    let (fetchedPostingList, q) :=
      if r0.type ≠ .List then
        (fetchedPostingList,
          q.emit (.error .ParsingError
            "Could not fetch list of postings out of the result from the server." none))
      else
        let postReceived := r0.toList
        listRecentLoop cv postReceived count fetchedPostingList q
    some (q.emit (.listedRecentPostings fetchedPostingList))

/-- The slot `MetaWeblogPrivate::slotFetchPosting`; `id` is the token the call
was tagged with (the value of `id.toInt()` as a key of `mCallMap`). -/
def slotFetchPosting (cv : QtConv) (q : MetaWeblog) (result : List QVariant) (id : Nat) :
    Option MetaWeblog :=
  let (posting, callMap) := QMap.index q.mCallMap id none
  let q := { q with mCallMap := callMap }
  let q := { q with mCallMap := QMap.remove q.mCallMap id }
  match result with
  | [] => none
  | r0 :: _ =>
    if r0.type ≠ .Map then
      some (q.emit (.error .ParsingError
        "Could not fetch posting out of the result from the server." posting))
    else
      let postInfo := r0.toMap
      match posting, readPostingFromMap cv (posting.map q.postings) postInfo with
      | some a, (true, some p) =>
        let q := q.setPosting a p
        let q := q.setPosting a { q.postings a with mStatus := .Fetched }
        some (q.emit (.fetchedPosting posting))
      | _, _ => some (q.emit (.error .ParsingError "Could not read posting." posting))

/-- The slot `MetaWeblogPrivate::slotCreatePosting`; `id` is the token the call
was tagged with. -/
def slotCreatePosting (cv : QtConv) (q : MetaWeblog) (result : List QVariant) (id : Nat) :
    Option MetaWeblog :=
  let (posting, callMap) := QMap.index q.mCallMap id none
  let q := { q with mCallMap := callMap }
  let q := { q with mCallMap := QMap.remove q.mCallMap id }
  match result with
  | [] => none
  | r0 :: _ =>
    if r0.type ≠ .String then
      some (q.emit (.error .ParsingError "Could not read the postingId, not a string." posting))
    else
      match posting with
      | none => none
      | some a =>
        let q := q.setPosting a { q.postings a with mPostingId := r0.toString cv }
        let q := q.setPosting a { q.postings a with mStatus := .Created }
        some (q.emit (.createdPosting posting))

/-- The slot `MetaWeblogPrivate::slotModifyPosting`; `id` is the token the call
was tagged with. -/
def slotModifyPosting (q : MetaWeblog) (result : List QVariant) (id : Nat) :
    Option MetaWeblog :=
  let (posting, callMap) := QMap.index q.mCallMap id none
  let q := { q with mCallMap := callMap }
  let q := { q with mCallMap := QMap.remove q.mCallMap id }
  match result with
  | [] => none
  | r0 :: _ =>
    if r0.type ≠ .Bool then
      some (q.emit (.error .ParsingError "Could not read the result, not a boolean." posting))
    else
      match posting with
      | none => none
      | some a =>
        let q := q.setPosting a { q.postings a with mStatus := .Modified }
        some (q.emit (.modifiedPosting posting))

/-- The slot `MetaWeblogPrivate::slotCreateMedia`; `id` is the token the call
was tagged with.  The url is kept as the string the server sent. -/
def slotCreateMedia (cv : QtConv) (q : MetaWeblog) (result : List QVariant) (id : Nat) :
    Option MetaWeblog :=
  let (media, callMap) := QMap.index q.mCallMediaMap id none
  let q := { q with mCallMediaMap := callMap }
  let q := { q with mCallMediaMap := QMap.remove q.mCallMediaMap id }
  match result with
  | [] => none
  | r0 :: _ =>
    if r0.type.toNat ≠ 8 then
      some (q.emit (.error .ParsingError "Could not read the result, not a map." none))
    else
      let resultStruct := r0.toMap
      let url := (QMap.value resultStruct "url" QVariant.invalid).toString cv
      if url ≠ "" then
        match media with
        | none => none
        | some a =>
          let q := q.setMedia a { q.medias a with mUrl := url }
          let q := q.setMedia a { q.medias a with mStatus := .Created }
          some (q.emit (.createdMedia media))
      else some q

/-- The slot `MetaWeblogPrivate::slotError`; `id` is the token the failed call
was tagged with.  The fault number is unused. -/
def slotError (q : MetaWeblog) (number : Int) (errorString : String) (id : Nat) : MetaWeblog :=
  let _unused := number
  let (posting, callMap) := QMap.index q.mCallMap id none
  let q := { q with mCallMap := callMap }
  q.emit (.error .XmlRpc errorString posting)

/-! ## Concrete inputs -/

/-- A conversion table for concrete evaluation. -/
def sampleConv : QtConv := ⟨fun _ => "", fun _ => .null, fun _ => ""⟩

/-- The posting of the round-trip example: title T, content C, one category. -/
def samplePosting : BlogPosting :=
  { BlogPosting.default with mTitle := "T", mContent := "C", mCategories := ["Blogroll"] }

/-- An adapter with no pending call and empty logs; every posting address holds
`samplePosting`. -/
def sampleBlog : MetaWeblog :=
  { blogId := "1", username := "u", password := "p", mCallCounter := 0, mCallMap := [],
    mCallMediaCounter := 1, mCallMediaMap := [], postings := fun _ => samplePosting,
    medias := fun _ => ⟨"", "", [], "", .New⟩, emitted := [], calls := [] }

/-! ## Runs of the adapter -/

/-- A request on a posting with a non-null pointer: the address of the posting
and the method that is called. -/
inductive Request where
  | createPosting (a : Nat)
  | modifyPosting (a : Nat)
  | fetchPosting (a : Nat)
deriving DecidableEq, Repr

/-- The address of the posting a request is about. -/
def Request.posting : Request → Nat
  | .createPosting a => a
  | .modifyPosting a => a
  | .fetchPosting a => a

/-- Calls the method of the request on the adapter. -/
def Request.issue (q : MetaWeblog) : Request → MetaWeblog
  | .createPosting a => KBlog.createPosting q (some a)
  | .modifyPosting a => KBlog.modifyPosting q (some a)
  | .fetchPosting a => KBlog.fetchPosting q (some a)

/-- A callback delivered by the transport for a call on a posting: a result for
one of the three result slots, or a fault for `slotError`. -/
inductive Response where
  | created (result : List QVariant) (id : Nat)
  | modified (result : List QVariant) (id : Nat)
  | fetched (result : List QVariant) (id : Nat)
  | fault (number : Int) (errorString : String) (id : Nat)

/-- Runs the slot the callback is connected to. -/
def Response.deliver (cv : QtConv) (q : MetaWeblog) : Response → Option MetaWeblog
  | .created result id => slotCreatePosting cv q result id
  | .modified result id => slotModifyPosting q result id
  | .fetched result id => slotFetchPosting cv q result id
  | .fault number errorString id => some (slotError q number errorString id)

/-- One step of a run: the caller issues a request or the transport delivers a
callback. -/
inductive Event where
  | request (r : Request)
  | response (r : Response)

/-- Runs a sequence of events from left to right. -/
def runEvents (cv : QtConv) (q : MetaWeblog) : List Event → Option MetaWeblog
  | [] => some q
  | .request r :: es => runEvents cv (r.issue q) es
  | .response r :: es =>
    match r.deliver cv q with
    | none => none
    | some q1 => runEvents cv q1 es

/-- The requests of a run, in order. -/
def requestsOf : List Event → List Request
  | [] => []
  | .request r :: es => r :: requestsOf es
  | .response _ :: es => requestsOf es

/-- A run with three requests on the posting at address 0: it is created, the
server answers with the id 42 (which releases token 0), it is modified, the
transport reports a fault for the modification, and it is fetched. -/
def sampleRun : List Event :=
  [Event.request (Request.createPosting 0),
    Event.response (Response.created [QVariant.string "42"] 0),
    Event.request (Request.modifyPosting 0),
    Event.response (Response.fault 500 "Internal Server Error" 1),
    Event.request (Request.fetchPosting 0)]

/-- An adapter like `sampleBlog` whose blog id has not been set (the empty
string). -/
def sampleBlogNoId : MetaWeblog := { sampleBlog with blogId := "" }

/-! ## Posts and comments (`src/src/blogpost.cpp`, `src/src/blogcomment.cpp`) -/

/-- The connection settings of a `Blog` that `BlogPost::journal` reads through
`url().url()`, `username()` and `blogId()` (`src/blog.h`). -/
structure Blog where
  url : String
  username : String
  blogId : String
deriving DecidableEq, Repr

/-- A `KCalendarCore::Journal`, the calendar record a post is converted to and
from: the attributes `blogpost.cpp` sets and reads.  Custom properties are
stored under the property name `X-KDE-<app>-<key>`. -/
structure Journal where
  uid : String
  summary : String
  categories : List String
  description : String
  descriptionIsRich : Bool
  dtStart : QDateTime
  customProperties : QMap String String
deriving DecidableEq, Repr

/-- The method `Journal::setCustomProperty`. -/
def Journal.setCustomProperty (j : Journal) (app key value : String) : Journal :=
  { j with customProperties :=
      QMap.insert j.customProperties ("X-KDE-" ++ app ++ "-" ++ key) value }

/-- The method `Journal::customProperty`: the stored value, or the empty string. -/
def Journal.customProperty (j : Journal) (app key : String) : String :=
  QMap.value j.customProperties ("X-KDE-" ++ app ++ "-" ++ key) ""

/-- The members of `BlogPostPrivate` that `blogpost.cpp` reads and writes; a
`BlogPost` is its d-pointer.  Urls are kept as strings. -/
structure BlogPost where
  mPrivate : Bool
  mPostId : String
  mTitle : String
  mContent : String
  mAdditionalContent : String
  mWpSlug : String
  mCategories : List String
  mTags : List String
  mMood : String
  mPermaLink : String
  mSummary : String
  mLink : String
  mMusic : String
  mTrackBackAllowed : Bool
  mCommentAllowed : Bool
  mError : String
  mJournalId : String
  mStatus : Status
  mCreationDateTime : QDateTime
  mModificationDateTime : QDateTime
deriving DecidableEq, Repr

/-- The getter `BlogPost::journalId`. -/
def BlogPost.journalId (p : BlogPost) : String := p.mJournalId

/-- The getter `BlogPost::isPrivate`. -/
def BlogPost.isPrivate (p : BlogPost) : Bool := p.mPrivate

/-- The setter `BlogPost::setPrivate`. -/
def BlogPost.setPrivate (p : BlogPost) (privatePost : Bool) : BlogPost :=
  { p with mPrivate := privatePost }

/-- The getter `BlogPost::postId`. -/
def BlogPost.postId (p : BlogPost) : String := p.mPostId

/-- The getter `BlogPost::title`. -/
def BlogPost.title (p : BlogPost) : String := p.mTitle

/-- The getter `BlogPost::content`. -/
def BlogPost.content (p : BlogPost) : String := p.mContent

/-- The getter `BlogPost::additionalContent`. -/
def BlogPost.additionalContent (p : BlogPost) : String := p.mAdditionalContent

/-- The getter `BlogPost::slug`. -/
def BlogPost.slug (p : BlogPost) : String := p.mWpSlug

/-- The getter `BlogPost::link`. -/
def BlogPost.link (p : BlogPost) : String := p.mLink

/-- The getter `BlogPost::permaLink`. -/
def BlogPost.permaLink (p : BlogPost) : String := p.mPermaLink

/-- The getter `BlogPost::isCommentAllowed`. -/
def BlogPost.isCommentAllowed (p : BlogPost) : Bool := p.mCommentAllowed

/-- The setter `BlogPost::setCommentAllowed`. -/
def BlogPost.setCommentAllowed (p : BlogPost) (commentAllowed : Bool) : BlogPost :=
  { p with mCommentAllowed := commentAllowed }

/-- The getter `BlogPost::isTrackBackAllowed`: it returns `mCommentAllowed`. -/
def BlogPost.isTrackBackAllowed (p : BlogPost) : Bool := p.mCommentAllowed

/-- The setter `BlogPost::setTrackBackAllowed`. -/
def BlogPost.setTrackBackAllowed (p : BlogPost) (allowTrackBacks : Bool) : BlogPost :=
  { p with mTrackBackAllowed := allowTrackBacks }

/-- The getter `BlogPost::summary`. -/
def BlogPost.summary (p : BlogPost) : String := p.mSummary

/-- The getter `BlogPost::tags`. -/
def BlogPost.tags (p : BlogPost) : List String := p.mTags

/-- The getter `BlogPost::mood`. -/
def BlogPost.mood (p : BlogPost) : String := p.mMood

/-- The getter `BlogPost::music`. -/
def BlogPost.music (p : BlogPost) : String := p.mMusic

/-- The getter `BlogPost::categories`. -/
def BlogPost.categories (p : BlogPost) : List String := p.mCategories

/-- The getter `BlogPost::creationDateTime`. -/
def BlogPost.creationDateTime (p : BlogPost) : QDateTime := p.mCreationDateTime

/-- The getter `BlogPost::modificationDateTime`. -/
def BlogPost.modificationDateTime (p : BlogPost) : QDateTime := p.mModificationDateTime

/-- The getter `BlogPost::status`. -/
def BlogPost.status (p : BlogPost) : Status := p.mStatus

/-- The getter `BlogPost::error`. -/
def BlogPost.error (p : BlogPost) : String := p.mError

/-- The copy constructor `BlogPost::BlogPost( const BlogPost & )`: every member
of the newly allocated `BlogPostPrivate` is assigned from a getter of `post`,
in the order of the source. -/
def BlogPost.copy (post : BlogPost) : BlogPost :=
  { mPrivate := post.isPrivate,
    mPostId := post.postId,
    mTitle := post.title,
    mContent := post.content,
    mAdditionalContent := post.additionalContent,
    mWpSlug := post.slug,
    mCategories := post.categories,
    mTags := post.tags,
    mMood := post.mood,
    mPermaLink := post.permaLink,
    mSummary := post.summary,
    mLink := post.link,
    mMusic := post.music,
    mTrackBackAllowed := post.isTrackBackAllowed,
    mCommentAllowed := post.isCommentAllowed,
    mError := post.error,
    mJournalId := post.journalId,
    mStatus := post.status,
    mCreationDateTime := post.creationDateTime,
    mModificationDateTime := post.modificationDateTime }

/-- The method `BlogPost::swap`: the two objects exchange their d-pointers. -/
def BlogPost.swap (self other : BlogPost) : BlogPost × BlogPost := (other, self)

/-- The operator `BlogPost::operator=`: a copy of `other` is made and swapped
with the object.  The result is the object and `other` after the assignment. -/
def BlogPost.assign (self other : BlogPost) : BlogPost × BlogPost :=
  let copy := BlogPost.copy other
  let (self, _copy) := BlogPost.swap self copy
  (self, other)

/-- Whether the text `s` begins with `pat`. -/
def startsWith : List Char → List Char → Bool
  | [], _ => true
  | _ :: _, [] => false
  | p :: ps, c :: cs => decide (p = c) && startsWith ps cs

/-- The part of `s` before the last occurrence of the non-empty text `pat`, if
`pat` occurs in `s`. -/
def beforeLast (pat : List Char) : List Char → Option (List Char)
  | [] => none
  | c :: t =>
    match beforeLast pat t with
    | some b => some (c :: b)
    | none => if startsWith pat (c :: t) then some [] else none

/-- A match of the `QRegExp` `<body[^>]*>(.*)</body>` that starts at the
beginning of `s`: the text captured by the group, if there is a match.  The
tag ends at the first `>` and the greedy group extends to the last `</body>`. -/
def matchBodyAt (s : List Char) : Option (List Char) :=
  if startsWith "<body".data s then
    match (s.drop 5).dropWhile (fun c => decide (c ≠ '>')) with
    | [] => none
    | _ :: t => beforeLast "</body>".data t
  else none

/-- The leftmost match of `<body[^>]*>(.*)</body>` in `s`: its position and the
captured text. -/
def findBody : List Char → Option (Nat × List Char)
  | [] => none
  | c :: t =>
    match matchBodyAt (c :: t) with
    | some cap => some (0, cap)
    | none =>
      match findBody t with
      | some (i, cap) => some (i + 1, cap)
      | none => none

/-- The method `QRegExp::indexIn` for the body pattern: the position of the
first match, or -1 when there is none. -/
def bodyIndexIn (s : List Char) : Int :=
  match findBody s with
  | some (i, _) => (i : Int)
  | none => -1

/-- The method `QRegExp::cap( 1 )` after `indexIn`: the captured text, or the
empty string when nothing matched. -/
def bodyCap1 (s : List Char) : List Char :=
  match findBody s with
  | some (_, cap) => cap
  | none => []

/-- The function `QChar::isSpace`, the class `\s` of `QRegExp`. -/
def isSpace (c : Char) : Bool :=
  (9 ≤ c.toNat && c.toNat ≤ 13) || c.toNat = 32 || c.toNat = 133 || c.toNat = 160 ||
  c.toNat = 5760 || (8192 ≤ c.toNat && c.toNat ≤ 8202) || c.toNat = 8232 || c.toNat = 8233 ||
  c.toNat = 8239 || c.toNat = 8287 || c.toNat = 12288

/-- A match of the `QRegExp` `<p style="[^"]*">` at the beginning of `s`: the
length of the match. -/
def matchStyledAt (s : List Char) : Option Nat :=
  if startsWith "<p style=\"".data s then
    match (s.drop 10).dropWhile (fun c => decide (c ≠ '"')) with
    | '"' :: '>' :: _ => some (10 + ((s.drop 10).takeWhile (fun c => decide (c ≠ '"'))).length + 2)
    | _ => none
  else none

/-- The call `richText.replace( QRegExp( <p style="[^"]*"> ), "<p>" )`: every
match, from left to right, is replaced; `skip` counts the characters of the
current match that are still to be dropped. -/
def replaceStyled : Nat → List Char → List Char
  | _, [] => []
  | skip + 1, _ :: t => replaceStyled skip t
  | 0, c :: t =>
    match matchStyledAt (c :: t) with
    | some n => "<p>".data ++ replaceStyled (n - 1) t
    | none => c :: replaceStyled 0 t

/-- The function `BlogPostPrivate::cleanRichText`.  The condition of the `if`
is the integer `indexIn` returns, true when it is not zero. -/
def cleanRichText (richText : String) : String :=
  let richText : String :=
    if bodyIndexIn richText.data ≠ 0 then
      let richText : String := String.mk (bodyCap1 richText.data)
      String.mk (richText.data.dropWhile isSpace)
    else richText
  let richText : String := String.mk (replaceStyled 0 richText.data)
  if richText = "<p></p>" then "" else richText

/-- The constructor `BlogPost::BlogPost( const QString &postId )`; `fresh` is
the newly allocated `BlogPostPrivate`. -/
def BlogPost.ofPostId (fresh : BlogPost) (postId : String) : BlogPost :=
  { fresh with mPrivate := false, mPostId := postId, mStatus := Status.New }

/-- The constructor `BlogPost::BlogPost( const KCalendarCore::Journal::Ptr & )`;
`fresh` is the newly allocated `BlogPostPrivate`. -/
def BlogPost.ofJournal (fresh : BlogPost) (journal : Journal) : BlogPost :=
  { fresh with
    mPrivate := false,
    mPostId := journal.customProperty "KBLOG" "ID",
    mJournalId := journal.uid,
    mStatus := Status.New,
    mTitle := journal.summary,
    mContent :=
      if journal.descriptionIsRich then cleanRichText journal.description
      else journal.description,
    mCategories := journal.categories,
    mCreationDateTime := journal.dtStart }

/-- The method `BlogPost::journal`. -/
def BlogPost.journal (p : BlogPost) (blog : Blog) : Journal :=
  let url := blog.url
  let username := blog.username
  let blogId := blog.blogId
  let id := "kblog-" ++ url ++ "-" ++ blogId ++ "-" ++ username ++ "-" ++ p.mPostId
  let journal : Journal :=
    { uid := id, summary := p.mTitle, categories := p.mCategories, description := p.mContent,
      descriptionIsRich := true, dtStart := p.mCreationDateTime, customProperties := [] }
  let journal := journal.setCustomProperty "KBLOG" "URL" url
  let journal := journal.setCustomProperty "KBLOG" "USER" blog.username
  let journal := journal.setCustomProperty "KBLOG" "BLOG" blogId
  let journal := journal.setCustomProperty "KBLOG" "ID" p.mPostId
  journal

/-- Modelled from the spec: the status of a comment (`blogcomment.h` is not
among the sources), the enumeration of §3. -/
inductive CommentStatus where
  | New | Fetched | Created | Removed | Error
deriving DecidableEq, Repr

/-- The members of `BlogCommentPrivate` that `blogcomment.cpp` reads and
writes; a `BlogComment` is its d-pointer. -/
structure BlogComment where
  mTitle : String
  mContent : String
  mEmail : String
  mName : String
  mCommentId : String
  mUrl : String
  mError : String
  mStatus : CommentStatus
  mModificationDateTime : QDateTime
  mCreationDateTime : QDateTime
deriving DecidableEq, Repr

/-- The getter `BlogComment::title`. -/
def BlogComment.title (c : BlogComment) : String := c.mTitle

/-- The getter `BlogComment::content`. -/
def BlogComment.content (c : BlogComment) : String := c.mContent

/-- The getter `BlogComment::commentId`. -/
def BlogComment.commentId (c : BlogComment) : String := c.mCommentId

/-- The getter `BlogComment::email`. -/
def BlogComment.email (c : BlogComment) : String := c.mEmail

/-- The getter `BlogComment::name`. -/
def BlogComment.name (c : BlogComment) : String := c.mName

/-- The getter `BlogComment::url`. -/
def BlogComment.url (c : BlogComment) : String := c.mUrl

/-- The getter `BlogComment::modificationDateTime`. -/
def BlogComment.modificationDateTime (c : BlogComment) : QDateTime := c.mModificationDateTime

/-- The getter `BlogComment::creationDateTime`. -/
def BlogComment.creationDateTime (c : BlogComment) : QDateTime := c.mCreationDateTime

/-- The getter `BlogComment::status`. -/
def BlogComment.status (c : BlogComment) : CommentStatus := c.mStatus

/-- The getter `BlogComment::error`. -/
def BlogComment.error (c : BlogComment) : String := c.mError

/-- The copy constructor `BlogComment::BlogComment( const BlogComment & )`:
every member of the newly allocated `BlogCommentPrivate` is assigned from a
getter of `c`, in the order of the source. -/
def BlogComment.copy (c : BlogComment) : BlogComment :=
  { mTitle := c.title,
    mContent := c.content,
    mEmail := c.email,
    mName := c.name,
    mCommentId := c.commentId,
    mUrl := c.url,
    mError := c.error,
    mStatus := c.status,
    mModificationDateTime := c.modificationDateTime,
    mCreationDateTime := c.creationDateTime }

/-- The method `BlogComment::swap`: the two objects exchange their d-pointers. -/
def BlogComment.swap (self other : BlogComment) : BlogComment × BlogComment := (other, self)

/-- The operator `BlogComment::operator=`: a copy of `c` is made and swapped
with the object.  The result is the object and `c` after the assignment. -/
def BlogComment.assign (self c : BlogComment) : BlogComment × BlogComment :=
  let copy := BlogComment.copy c
  let (self, _copy) := BlogComment.swap self copy
  (self, c)

/-- A post for concrete evaluation: id 7, title T, content C, one category;
neither comments nor track backs are allowed. -/
def samplePost : BlogPost :=
  { mPrivate := false, mPostId := "7", mTitle := "T", mContent := "C",
    mAdditionalContent := "", mWpSlug := "", mCategories := ["Blogroll"], mTags := [],
    mMood := "", mPermaLink := "", mSummary := "", mLink := "", mMusic := "",
    mTrackBackAllowed := false, mCommentAllowed := false, mError := "", mJournalId := "",
    mStatus := Status.New, mCreationDateTime := QDateTime.null,
    mModificationDateTime := QDateTime.null }

/-- The property that two posts agree on every public getter of `BlogPost`. -/
def BlogPost.sameGetters (q p : BlogPost) : Prop :=
  q.isPrivate = p.isPrivate ∧ q.postId = p.postId ∧ q.title = p.title ∧
  q.content = p.content ∧ q.additionalContent = p.additionalContent ∧ q.slug = p.slug ∧
  q.categories = p.categories ∧ q.tags = p.tags ∧ q.mood = p.mood ∧ q.music = p.music ∧
  q.permaLink = p.permaLink ∧ q.link = p.link ∧ q.summary = p.summary ∧
  q.isTrackBackAllowed = p.isTrackBackAllowed ∧ q.isCommentAllowed = p.isCommentAllowed ∧
  q.error = p.error ∧ q.journalId = p.journalId ∧ q.status = p.status ∧
  q.creationDateTime = p.creationDateTime ∧ q.modificationDateTime = p.modificationDateTime

/-- The property that two comments agree on every public getter of
`BlogComment`. -/
def BlogComment.sameGetters (d c : BlogComment) : Prop :=
  d.title = c.title ∧ d.content = c.content ∧ d.commentId = c.commentId ∧
  d.email = c.email ∧ d.name = c.name ∧ d.url = c.url ∧
  d.modificationDateTime = c.modificationDateTime ∧
  d.creationDateTime = c.creationDateTime ∧ d.status = c.status ∧ d.error = c.error

/-- A comment for concrete evaluation. -/
def sampleComment : BlogComment :=
  { mTitle := "Re", mContent := "C", mEmail := "a@b.org", mName := "N", mCommentId := "3",
    mUrl := "", mError := "", mStatus := CommentStatus.New,
    mModificationDateTime := QDateTime.null, mCreationDateTime := QDateTime.valid 0 }

/-! ## MovableType: the chain of calls that creates a post

Only `src/movabletype_p.h` is among the sources: it declares the slots and the
member `mPublishAfterCategories`, the bodies are in `movabletype.cpp`.  The
chain is therefore modelled from §4.2 and §4.4 of the specification. -/

/-- Modelled from the spec: the remote calls of the MovableType chain of §4.4,
whose bodies (`movabletype.cpp`) are missing: the base create call with its
publish argument, the category-assignment call and the call that publishes the
post, each tagged with its token. -/
inductive MtCall where
  | create (publish : Bool) (token : Nat)
  | setPostCategories (postId : String) (token : Nat)
  | publish (postId : String) (token : Nat)
deriving DecidableEq, Repr

/-- Modelled from the spec: a reply of the RPC transport of §6, missing with
`movabletype.cpp`: a result value delivered to the success callback or a fault
delivered to the fault callback. -/
inductive MtReply where
  | result (value : QVariant)
  | fault (code : Int) (message : String)

/-- Modelled from the spec: the MovableType adapter of §4.4, missing with
`movabletype.cpp`: the call correlator of §4.2 (counter, pending postings, and
the auxiliary publish flag `mPublishAfterCategories` declared in
`movabletype_p.h`), the heap of caller-owned postings and the two output
logs. -/
structure MovableType where
  mCallCounter : Nat
  mCallMap : QMap Nat PostingPtr
  mPublishAfterCategories : QMap Nat Bool
  postings : Nat → BlogPosting
  emitted : List Signal
  calls : List MtCall

/-- Modelled from the spec: the operation `issue(object, auxState) -> token` of
the call correlator (§4.2), missing with `movabletype.cpp`: the counter value
becomes the token of the pending posting and its publish flag. -/
def MovableType.issue (s : MovableType) (a : Nat) (publish : Bool) : Nat × MovableType :=
  let i := s.mCallCounter
  (i, { s with mCallCounter := uintSucc s.mCallCounter,
               mCallMap := QMap.insert s.mCallMap i (some a),
               mPublishAfterCategories := QMap.insert s.mPublishAfterCategories i publish })

/-- Modelled from the spec: the operation `resolve(token)` of the call
correlator (§4.2), missing with `movabletype.cpp`: the pending posting and its
publish flag, or `none` for NotFound. -/
def MovableType.resolve (s : MovableType) (token : Nat) : Option (Nat × Bool) :=
  match QMap.value s.mCallMap token none with
  | none => none
  | some a => some (a, QMap.value s.mPublishAfterCategories token false)

/-- Modelled from the spec: the operation `release(token)` of the call
correlator (§4.2), missing with `movabletype.cpp`. -/
def MovableType.release (s : MovableType) (token : Nat) : MovableType :=
  { s with mCallMap := QMap.remove s.mCallMap token,
           mPublishAfterCategories := QMap.remove s.mPublishAfterCategories token }

/-- Modelled from the spec: emitting a signal, for the adapter whose source
`movabletype.cpp` is missing. -/
def MovableType.emit (s : MovableType) (e : Signal) : MovableType :=
  { s with emitted := s.emitted ++ [e] }

/-- Modelled from the spec: issuing a remote call, for the adapter whose source
`movabletype.cpp` is missing. -/
def MovableType.call (s : MovableType) (c : MtCall) : MovableType :=
  { s with calls := s.calls ++ [c] }

/-- Modelled from the spec: `MovableType::createPost` (§4.4 a, b), whose body
in `movabletype.cpp` is missing: a null post is an immediate error of kind
Other with no call (§7); otherwise the post and the desired publish flag
`!isPrivate` are cached under the token of the base call, and the base call is
issued with publish = false. -/
def MovableType.createPost (s : MovableType) (post : PostingPtr) : MovableType :=
  match post with
  | none => s.emit (Signal.error ErrorType.Other "Post is a null pointer." none)
  | some a =>
    let (i, s) := s.issue a (!(s.postings a).mPrivate)
    s.call (MtCall.create false i)

/-- Modelled from the spec: `MovableTypePrivate::slotCreatePost` with the fault
path (§4.4 c), whose body in `movabletype.cpp` is missing: an unknown token is
dropped; a fault or a result that is not a string ends the chain with an
error; a string becomes the post id and the category-assignment call is issued
on a new token that carries the cached publish flag. -/
def MovableType.slotCreatePost (s : MovableType) (reply : MtReply) (id : Nat) : MovableType :=
  match s.resolve id with
  | none => s
  | some (a, publish) =>
    let s := s.release id
    match reply with
    | MtReply.fault _ message => s.emit (Signal.error ErrorType.XmlRpc message (some a))
    | MtReply.result (QVariant.string postId) =>
      let s := { s with postings := fun b =>
        if b = a then { s.postings a with mPostingId := postId } else s.postings b }
      let (j, s) := s.issue a publish
      s.call (MtCall.setPostCategories postId j)
    | MtReply.result _ =>
      s.emit (Signal.error ErrorType.ParsingError "Could not read the post id." (some a))

/-- Modelled from the spec: `MovableTypePrivate::slotSetPostCategories` with the
fault path (§4.4 d), whose body in `movabletype.cpp` is missing: on success the
publish call is issued when the cached flag is true, otherwise the chain ends
and `createdPost` is emitted; a fault ends the chain with an error. -/
def MovableType.slotSetPostCategories (s : MovableType) (reply : MtReply) (id : Nat) :
    MovableType :=
  match s.resolve id with
  | none => s
  | some (a, publish) =>
    let s := s.release id
    match reply with
    | MtReply.fault _ message => s.emit (Signal.error ErrorType.XmlRpc message (some a))
    | MtReply.result _ =>
      if publish then
        let (k, s) := s.issue a publish
        s.call (MtCall.publish (s.postings a).mPostingId k)
      else
        let s := { s with postings := fun b =>
          if b = a then { s.postings a with mStatus := Status.Created } else s.postings b }
        s.emit (Signal.createdPosting (some a))

/-- Modelled from the spec: `MovableTypePrivate::slotModifyPost` as the end of
the create chain, with the fault path (§4.4 d, §4.1), whose body in
`movabletype.cpp` is missing: the publish call returns a boolean, true is
success and `createdPost` is emitted; anything else is an error. -/
def MovableType.slotModifyPost (s : MovableType) (reply : MtReply) (id : Nat) : MovableType :=
  match s.resolve id with
  | none => s
  | some (a, _) =>
    let s := s.release id
    match reply with
    | MtReply.fault _ message => s.emit (Signal.error ErrorType.XmlRpc message (some a))
    | MtReply.result (QVariant.bool true) =>
      let s := { s with postings := fun b =>
        if b = a then { s.postings a with mStatus := Status.Created } else s.postings b }
      s.emit (Signal.createdPosting (some a))
    | MtReply.result _ =>
      s.emit (Signal.error ErrorType.ParsingError "Could not read the result." (some a))

/-- A MovableType adapter with no pending call and empty logs; every posting
address holds `samplePosting`, which is not private. -/
def sampleMovableType : MovableType :=
  { mCallCounter := 0, mCallMap := [], mPublishAfterCategories := [],
    postings := fun _ => samplePosting, emitted := [], calls := [] }

/-! ## Properties of the adapter -/

/-! ### Auxiliary facts -/

/-- The category entry built for an outer key, entry by entry. -/
theorem categoryOfKey_eq (cv : QtConv) (serverMap : QMap String QVariant) (key : String) :
    categoryOfKey cv serverMap key =
      [("description",
          (QMap.value (QMap.value serverMap key QVariant.invalid).toMap "description"
            QVariant.invalid).toString cv),
        ("htmlUrl",
          (QMap.value (QMap.value serverMap key QVariant.invalid).toMap "htmlUrl"
            QVariant.invalid).toString cv),
        ("name", key),
        ("rssUrl",
          (QMap.value (QMap.value serverMap key QVariant.invalid).toMap "rssUrl"
            QVariant.invalid).toString cv)] := rfl

/-- The category entry built for a list element, entry by entry. -/
theorem categoryOfElement_eq (cv : QtConv) (it : QVariant) :
    categoryOfElement cv it =
      [("description", (QMap.value it.toMap "description" QVariant.invalid).toString cv),
        ("htmlUrl", (QMap.value it.toMap "htmlUrl" QVariant.invalid).toString cv),
        ("name", (QMap.value it.toMap "categoryName" QVariant.invalid).toString cv),
        ("rssUrl", (QMap.value it.toMap "rssUrl" QVariant.invalid).toString cv)] := rfl

/-- Reading a key that a map does not contain gives the default value. -/
theorem value_of_not_contains {κ α : Type} [DecidableEq κ] (m : QMap κ α) (key : κ) (dflt : α)
    (h : QMap.contains m key = false) : QMap.value m key dflt = dflt := by
  induction m with
  | nil => rfl
  | cons e rest ih =>
    obtain ⟨k, v⟩ := e
    simp only [QMap.contains, List.any_cons, Bool.or_eq_false_iff, decide_eq_false_iff_not] at h
    have h2 : QMap.contains rest key = false := h.2
    simp [QMap.value, h.1, ih h2]

/-! ### Category listing -/

/-- C1. When the payload `result[0]` is a Map, `slotListCategories` emits exactly
one signal, `listedCategories`, and no error.  The emitted list pairs off with
the outer keys of the map in order: each entry has exactly the keys
description, htmlUrl, name, rssUrl; its name is the outer key; and each of
description, htmlUrl, rssUrl is the nested string value when the nested map
holds a string there and the empty string when the nested field is missing. -/
theorem slotListCategories_map_payload (cv : QtConv) (q : MetaWeblog)
    (m : QMap String QVariant) (rest : List QVariant) :
    ∃ (categories : List (QMap String String)) (q' : MetaWeblog),
      slotListCategories cv q (QVariant.map m :: rest) = some q' ∧
      q'.emitted = q.emitted ++ [Signal.listedCategories categories] ∧
      List.Forall₂
        (fun key category =>
          QMap.keys category = ["description", "htmlUrl", "name", "rssUrl"] ∧
          QMap.value category "name" "" = key ∧
          ∀ field ∈ ["description", "htmlUrl", "rssUrl"],
            (∀ s, QMap.value (QMap.value m key QVariant.invalid).toMap field QVariant.invalid
                  = QVariant.string s → QMap.value category field "" = s) ∧
            (QMap.contains (QMap.value m key QVariant.invalid).toMap field = false →
              QMap.value category field "" = ""))
        (QMap.keys m) categories := by
  refine ⟨(QMap.keys m).map (categoryOfKey cv m), q.emit (Signal.listedCategories
    ((QMap.keys m).map (categoryOfKey cv m))), ?_, rfl, ?_⟩
  · simp [slotListCategories, QVariant.type, QVariant.toMap]
  · rw [List.forall₂_map_right_iff, List.forall₂_same]
    intro key _
    rw [categoryOfKey_eq]
    refine ⟨rfl, by simp [QMap.value], ?_⟩
    intro field hf
    simp only [List.mem_cons, List.mem_singleton, List.not_mem_nil, or_false] at hf
    constructor
    · intro s hs
      rcases hf with rfl | rfl | rfl <;> simp [QMap.value, hs, QVariant.toString]
    · intro hc
      rcases hf with rfl | rfl | rfl <;>
        simp [QMap.value, value_of_not_contains _ _ _ hc, QVariant.toString]

/-- C2. When the payload `result[0]` is a List, `slotListCategories` emits
exactly one signal, `listedCategories`, and no error.  The emitted list has
the length of the payload list and pairs off with it in order: the name of the
i-th entry is the `categoryName` string of the i-th element, and description,
htmlUrl, rssUrl are the strings of the same element (empty when missing). -/
theorem slotListCategories_list_payload (cv : QtConv) (q : MetaWeblog)
    (l : List QVariant) (rest : List QVariant) :
    ∃ (categories : List (QMap String String)) (q' : MetaWeblog),
      slotListCategories cv q (QVariant.list l :: rest) = some q' ∧
      q'.emitted = q.emitted ++ [Signal.listedCategories categories] ∧
      categories.length = l.length ∧
      List.Forall₂
        (fun element category =>
          QMap.keys category = ["description", "htmlUrl", "name", "rssUrl"] ∧
          (∀ s, QMap.value element.toMap "categoryName" QVariant.invalid = QVariant.string s →
            QMap.value category "name" "" = s) ∧
          ∀ field ∈ ["description", "htmlUrl", "rssUrl"],
            (∀ s, QMap.value element.toMap field QVariant.invalid = QVariant.string s →
              QMap.value category field "" = s) ∧
            (QMap.contains element.toMap field = false → QMap.value category field "" = ""))
        l categories := by
  refine ⟨l.map (categoryOfElement cv), q.emit (Signal.listedCategories
    (l.map (categoryOfElement cv))), ?_, rfl, by simp, ?_⟩
  · simp [slotListCategories, QVariant.type, QVariant.toList]
  · rw [List.forall₂_map_right_iff, List.forall₂_same]
    intro element _
    rw [categoryOfElement_eq]
    refine ⟨rfl, ?_, ?_⟩
    · intro s hs
      simp [QMap.value, hs, QVariant.toString]
    · intro field hf
      simp only [List.mem_cons, List.mem_singleton, List.not_mem_nil, or_false] at hf
      constructor
      · intro s hs
        rcases hf with rfl | rfl | rfl <;> simp [QMap.value, hs, QVariant.toString]
      · intro hc
        rcases hf with rfl | rfl | rfl <;>
          simp [QMap.value, value_of_not_contains _ _ _ hc, QVariant.toString]

/-- C3. When the payload `result[0]` is neither a Map nor a List,
`slotListCategories` emits exactly one signal: an error of kind ParsingError.
No `listedCategories` signal is emitted, so no category entry is delivered. -/
theorem slotListCategories_malformed_payload (cv : QtConv) (q : MetaWeblog)
    (r0 : QVariant) (rest : List QVariant)
    (hMap : r0.type ≠ QVariantType.Map) (hList : r0.type ≠ QVariantType.List) :
    ∃ q' : MetaWeblog,
      slotListCategories cv q (r0 :: rest) = some q' ∧
      q'.emitted = q.emitted ++ [Signal.error ErrorType.ParsingError
        "Could not list categories out of the result from the server." none] := by
  refine ⟨q.emit (Signal.error ErrorType.ParsingError
    "Could not list categories out of the result from the server." none), ?_, rfl⟩
  simp [slotListCategories, hMap, hList]

/-- C3 at a concrete input: the payload is the number 3. -/
theorem slotListCategories_malformed_payload_witness :
    (QVariant.int 3).type ≠ QVariantType.Map ∧ (QVariant.int 3).type ≠ QVariantType.List ∧
    ∃ q' : MetaWeblog,
      slotListCategories sampleConv sampleBlog [QVariant.int 3] = some q' ∧
      q'.emitted = sampleBlog.emitted ++ [Signal.error ErrorType.ParsingError
        "Could not list categories out of the result from the server." none] :=
  ⟨by decide, by decide,
    slotListCategories_malformed_payload sampleConv sampleBlog (QVariant.int 3) []
      (by decide) (by decide)⟩

/-! ### Single-posting responses -/

/-- Reading a token that is mapped to a posting leaves the call map as it is. -/
theorem index_of_value_some (m : QMap Nat PostingPtr) (t a : Nat)
    (h : QMap.value m t none = some a) : QMap.index m t none = (some a, m) := by
  have hc : QMap.contains m t = true := by
    by_contra hn
    have hf : QMap.contains m t = false := by simpa using hn
    rw [value_of_not_contains m t none hf] at h
    exact Option.noConfusion h
  simp [QMap.index, hc, h]

/-- A posting that exists is always read successfully. -/
theorem readPostingFromMap_some (cv : QtConv) (p : BlogPosting) (m : QMap String QVariant) :
    ∃ p', readPostingFromMap cv (some p) m = (true, some p') := ⟨_, rfl⟩

/-- C4. For a posting pending under token `t` (the call map sends `t` to its
address `a`) and a result whose first element is the string `s`,
`slotCreatePosting` returns normally, leaves the posting with postingId `s` and
status Created (every other attribute and every other posting unchanged), and
emits exactly one signal, `createdPosting` for that posting, and no error. -/
theorem slotCreatePosting_string_result (cv : QtConv) (q : MetaWeblog) (t a : Nat)
    (s : String) (rest : List QVariant) (hp : QMap.value q.mCallMap t none = some a) :
    ∃ q' : MetaWeblog,
      slotCreatePosting cv q (QVariant.string s :: rest) t = some q' ∧
      q'.postings a = { q.postings a with mPostingId := s, mStatus := Status.Created } ∧
      (∀ b, b ≠ a → q'.postings b = q.postings b) ∧
      q'.emitted = q.emitted ++ [Signal.createdPosting (some a)] := by
  simp [slotCreatePosting, index_of_value_some _ _ _ hp, QVariant.type, QVariant.toString,
    MetaWeblog.emit, MetaWeblog.setPosting]
  intro b hb
  simp [hb]

/-- C4 at the round-trip example: the posting with title T, content C and
category Blogroll is sent with `createPosting` (token 0) and the server answers
with the string 42. -/
theorem slotCreatePosting_string_result_witness :
    QMap.value (createPosting sampleBlog (some 0)).mCallMap 0 none = some 0 ∧
    ∃ q' : MetaWeblog,
      slotCreatePosting sampleConv (createPosting sampleBlog (some 0))
        [QVariant.string "42"] 0 = some q' ∧
      q'.postings 0 = { samplePosting with mPostingId := "42", mStatus := Status.Created } ∧
      (∀ b, b ≠ 0 → q'.postings b = samplePosting) ∧
      q'.emitted = [Signal.createdPosting (some 0)] :=
  ⟨by decide,
    slotCreatePosting_string_result sampleConv (createPosting sampleBlog (some 0)) 0 0 "42" []
      (by decide)⟩

/-- C6. For a posting pending under token `t` and a result whose first element
is the Map `m`, `slotFetchPosting` returns normally: `readPostingFromMap`
succeeds on the posting and `m`, the posting becomes the record it produced
with status Fetched, no other posting changes, and exactly one signal is
emitted, `fetchedPosting` for that posting, and no error. -/
theorem slotFetchPosting_map_result (cv : QtConv) (q : MetaWeblog) (t a : Nat)
    (m : QMap String QVariant) (rest : List QVariant)
    (hp : QMap.value q.mCallMap t none = some a) :
    ∃ (p : BlogPosting) (q' : MetaWeblog),
      readPostingFromMap cv (some (q.postings a)) m = (true, some p) ∧
      slotFetchPosting cv q (QVariant.map m :: rest) t = some q' ∧
      q'.postings a = { p with mStatus := Status.Fetched } ∧
      (∀ b, b ≠ a → q'.postings b = q.postings b) ∧
      q'.emitted = q.emitted ++ [Signal.fetchedPosting (some a)] := by
  obtain ⟨p, hr⟩ := readPostingFromMap_some cv (q.postings a) m
  have hs : slotFetchPosting cv q (QVariant.map m :: rest) t =
      some (((({ q with mCallMap := QMap.remove q.mCallMap t } : MetaWeblog).setPosting a p).setPosting
        a { p with mStatus := Status.Fetched }).emit (Signal.fetchedPosting (some a))) := by
    simp [slotFetchPosting, index_of_value_some _ _ _ hp, QVariant.type, QVariant.toMap, hr,
      MetaWeblog.setPosting]
  refine ⟨p, _, hr, hs, ?_, ?_, ?_⟩
  · simp [MetaWeblog.emit, MetaWeblog.setPosting]
  · intro b hb
    simp [MetaWeblog.emit, MetaWeblog.setPosting, hb]
  · simp [MetaWeblog.emit, MetaWeblog.setPosting]

/-- C6 at a concrete input: the posting registered by `fetchPosting` under
token 0 and a payload with a postid and a title. -/
theorem slotFetchPosting_map_result_witness :
    QMap.value (fetchPosting sampleBlog (some 0)).mCallMap 0 none = some 0 ∧
    ∃ (p : BlogPosting) (q' : MetaWeblog),
      readPostingFromMap sampleConv (some ((fetchPosting sampleBlog (some 0)).postings 0))
        [("postid", QVariant.string "7"), ("title", QVariant.string "X")] = (true, some p) ∧
      slotFetchPosting sampleConv (fetchPosting sampleBlog (some 0))
        [QVariant.map [("postid", QVariant.string "7"), ("title", QVariant.string "X")]] 0
        = some q' ∧
      q'.postings 0 = { p with mStatus := Status.Fetched } ∧
      (∀ b, b ≠ 0 → q'.postings b = (fetchPosting sampleBlog (some 0)).postings b) ∧
      q'.emitted = (fetchPosting sampleBlog (some 0)).emitted
        ++ [Signal.fetchedPosting (some 0)] :=
  ⟨by decide,
    slotFetchPosting_map_result sampleConv (fetchPosting sampleBlog (some 0)) 0 0
      [("postid", QVariant.string "7"), ("title", QVariant.string "X")] [] (by decide)⟩

/-- C5, the claim fails for the boolean false: with a posting pending under
token 0 and the result `false`, `slotModifyPosting` emits `modifiedPosting`
(and no error) and sets the status Modified. -/
theorem slotModifyPosting_false_result :
    ∃ q' : MetaWeblog,
      slotModifyPosting (modifyPosting sampleBlog (some 0)) [QVariant.bool false] 0 = some q' ∧
      q'.emitted = [Signal.modifiedPosting (some 0)] ∧
      (q'.postings 0).mStatus = Status.Modified ∧
      ((modifyPosting sampleBlog (some 0)).postings 0).mStatus = Status.New :=
  ⟨_, rfl, rfl, rfl, rfl⟩

/-- C5 as amended. For a posting pending under token `t`, `slotModifyPosting`
returns normally and looks only at the type of `result[0]`: when it is a Bool
(true or false alike) the posting gets status Modified and exactly one signal,
`modifiedPosting`, is emitted; when it is not a Bool exactly one signal, an
error of kind ParsingError, is emitted, no `modifiedPosting`, and no posting
is changed. -/
theorem slotModifyPosting_by_type (q : MetaWeblog) (t a : Nat) (r0 : QVariant)
    (rest : List QVariant) (hp : QMap.value q.mCallMap t none = some a) :
    ∃ q' : MetaWeblog,
      slotModifyPosting q (r0 :: rest) t = some q' ∧
      (r0.type = QVariantType.Bool →
        q'.emitted = q.emitted ++ [Signal.modifiedPosting (some a)] ∧
        q'.postings a = { q.postings a with mStatus := Status.Modified } ∧
        ∀ b, b ≠ a → q'.postings b = q.postings b) ∧
      (r0.type ≠ QVariantType.Bool →
        q'.emitted = q.emitted ++ [Signal.error ErrorType.ParsingError
          "Could not read the result, not a boolean." (some a)] ∧
        q'.postings = q.postings) := by
  by_cases hb : r0.type = QVariantType.Bool
  · refine ⟨_, by simp [slotModifyPosting, index_of_value_some _ _ _ hp, hb]; rfl, ?_, ?_⟩
    · intro _
      refine ⟨by simp [MetaWeblog.emit, MetaWeblog.setPosting],
        by simp [MetaWeblog.emit, MetaWeblog.setPosting], ?_⟩
      intro b hb
      simp [MetaWeblog.emit, MetaWeblog.setPosting, hb]
    · intro h
      exact absurd hb h
  · refine ⟨_, by simp [slotModifyPosting, index_of_value_some _ _ _ hp, hb]; rfl, ?_, ?_⟩
    · intro h
      exact absurd h hb
    · intro _
      exact ⟨rfl, rfl⟩

/-- C5 as amended, at concrete inputs: the results `true` and the number 3 for
the posting registered by `modifyPosting` under token 0. -/
theorem slotModifyPosting_by_type_witness :
    QMap.value (modifyPosting sampleBlog (some 0)).mCallMap 0 none = some 0 ∧
    (∃ q' : MetaWeblog,
      slotModifyPosting (modifyPosting sampleBlog (some 0)) [QVariant.bool true] 0 = some q' ∧
      q'.emitted = [Signal.modifiedPosting (some 0)]) ∧
    (∃ q' : MetaWeblog,
      slotModifyPosting (modifyPosting sampleBlog (some 0)) [QVariant.int 3] 0 = some q' ∧
      q'.emitted = [Signal.error ErrorType.ParsingError
          "Could not read the result, not a boolean." (some 0)]) :=
  ⟨by decide,
    (slotModifyPosting_by_type (modifyPosting sampleBlog (some 0)) 0 0 (QVariant.bool true) []
      (by decide)).imp fun _ h => ⟨h.1, (h.2.1 rfl).1⟩,
    (slotModifyPosting_by_type (modifyPosting sampleBlog (some 0)) 0 0 (QVariant.int 3) []
      (by decide)).imp fun _ h => ⟨h.1, (h.2.2 (by decide)).1⟩⟩

/-- The result of `slotCreatePosting` on a first element that is not a String. -/
theorem slotCreatePosting_mismatch (cv : QtConv) (q : MetaWeblog) (t a : Nat)
    (r0 : QVariant) (rest : List QVariant) (hp : QMap.value q.mCallMap t none = some a)
    (h : r0.type ≠ QVariantType.String) :
    slotCreatePosting cv q (r0 :: rest) t =
      some (({ q with mCallMap := QMap.remove q.mCallMap t } : MetaWeblog).emit
        (Signal.error ErrorType.ParsingError
          "Could not read the postingId, not a string." (some a))) := by
  simp [slotCreatePosting, index_of_value_some _ _ _ hp, h]

/-- The result of `slotModifyPosting` on a first element that is not a Bool. -/
theorem slotModifyPosting_mismatch (q : MetaWeblog) (t a : Nat)
    (r0 : QVariant) (rest : List QVariant) (hp : QMap.value q.mCallMap t none = some a)
    (h : r0.type ≠ QVariantType.Bool) :
    slotModifyPosting q (r0 :: rest) t =
      some (({ q with mCallMap := QMap.remove q.mCallMap t } : MetaWeblog).emit
        (Signal.error ErrorType.ParsingError
          "Could not read the result, not a boolean." (some a))) := by
  simp [slotModifyPosting, index_of_value_some _ _ _ hp, h]

/-- The result of `slotFetchPosting` on a first element that is not a Map. -/
theorem slotFetchPosting_mismatch (cv : QtConv) (q : MetaWeblog) (t a : Nat)
    (r0 : QVariant) (rest : List QVariant) (hp : QMap.value q.mCallMap t none = some a)
    (h : r0.type ≠ QVariantType.Map) :
    slotFetchPosting cv q (r0 :: rest) t =
      some (({ q with mCallMap := QMap.remove q.mCallMap t } : MetaWeblog).emit
        (Signal.error ErrorType.ParsingError
          "Could not fetch posting out of the result from the server." (some a))) := by
  simp [slotFetchPosting, index_of_value_some _ _ _ hp, h]


/-- C7. For a posting pending under token `t` and a result whose first element
does not have the expected type (not a String for `slotCreatePosting`, not a
Bool for `slotModifyPosting`, not a Map for `slotFetchPosting`), the handler
returns normally and emits exactly one signal: an error of kind ParsingError
that carries the posting.  No `createdPosting`, `modifiedPosting` or
`fetchedPosting` signal is emitted. -/
theorem type_mismatch_emits_parsing_error (cv : QtConv) (q : MetaWeblog) (t a : Nat)
    (r0 : QVariant) (rest : List QVariant) (hp : QMap.value q.mCallMap t none = some a) :
    (r0.type ≠ QVariantType.String →
      ∃ q' : MetaWeblog, slotCreatePosting cv q (r0 :: rest) t = some q' ∧
        q'.emitted = q.emitted ++ [Signal.error ErrorType.ParsingError
          "Could not read the postingId, not a string." (some a)]) ∧
    (r0.type ≠ QVariantType.Bool →
      ∃ q' : MetaWeblog, slotModifyPosting q (r0 :: rest) t = some q' ∧
        q'.emitted = q.emitted ++ [Signal.error ErrorType.ParsingError
          "Could not read the result, not a boolean." (some a)]) ∧
    (r0.type ≠ QVariantType.Map →
      ∃ q' : MetaWeblog, slotFetchPosting cv q (r0 :: rest) t = some q' ∧
        q'.emitted = q.emitted ++ [Signal.error ErrorType.ParsingError
          "Could not fetch posting out of the result from the server." (some a)]) := by
  exact ⟨fun h => ⟨_, slotCreatePosting_mismatch cv q t a r0 rest hp h, rfl⟩,
    fun h => ⟨_, slotModifyPosting_mismatch q t a r0 rest hp h, rfl⟩,
    fun h => ⟨_, slotFetchPosting_mismatch cv q t a r0 rest hp h, rfl⟩⟩

/-- C7 at a concrete input: the number 3 is delivered to each of the three
handlers for the posting registered under token 0. -/
theorem type_mismatch_emits_parsing_error_witness :
    QMap.value (createPosting sampleBlog (some 0)).mCallMap 0 none = some 0 ∧
    (∃ q' : MetaWeblog,
      slotCreatePosting sampleConv (createPosting sampleBlog (some 0)) [QVariant.int 3] 0
        = some q' ∧
      q'.emitted = [Signal.error ErrorType.ParsingError
          "Could not read the postingId, not a string." (some 0)]) ∧
    (∃ q' : MetaWeblog,
      slotModifyPosting (createPosting sampleBlog (some 0)) [QVariant.int 3] 0 = some q' ∧
      q'.emitted = [Signal.error ErrorType.ParsingError
          "Could not read the result, not a boolean." (some 0)]) ∧
    (∃ q' : MetaWeblog,
      slotFetchPosting sampleConv (createPosting sampleBlog (some 0)) [QVariant.int 3] 0
        = some q' ∧
      q'.emitted = [Signal.error ErrorType.ParsingError
          "Could not fetch posting out of the result from the server." (some 0)]) :=
  ⟨by decide,
    (type_mismatch_emits_parsing_error sampleConv (createPosting sampleBlog (some 0)) 0 0
      (QVariant.int 3) [] (by decide)).1 (by decide),
    (type_mismatch_emits_parsing_error sampleConv (createPosting sampleBlog (some 0)) 0 0
      (QVariant.int 3) [] (by decide)).2.1 (by decide),
    (type_mismatch_emits_parsing_error sampleConv (createPosting sampleBlog (some 0)) 0 0
      (QVariant.int 3) [] (by decide)).2.2 (by decide)⟩

/-- C8, the claim fails: a posting with status New and an empty error string is
pending under token 0 and the server answers `createPosting` with a boolean.
`slotCreatePosting` emits the ParsingError carrying the posting, and after the
handler the posting still has status New and an empty error string. -/
theorem slotCreatePosting_error_keeps_status :
    ∃ q' : MetaWeblog,
      slotCreatePosting sampleConv (createPosting sampleBlog (some 0)) [QVariant.bool true] 0
        = some q' ∧
      q'.emitted = [Signal.error ErrorType.ParsingError
          "Could not read the postingId, not a string." (some 0)] ∧
      (q'.postings 0).mStatus = Status.New ∧
      (q'.postings 0).mError = "" :=
  ⟨_, rfl, rfl, rfl, rfl⟩

/-- C8 as amended. Whenever an operation on a posting pending under token `t`
fails (a type mismatch in `slotCreatePosting`, `slotModifyPosting` or
`slotFetchPosting`, or a transport fault in `slotError`), the handler emits
the error carrying the posting and leaves every posting object exactly as it
was: neither the status nor the error string of the posting is written. -/
theorem failed_operation_leaves_posting_unchanged (cv : QtConv) (q : MetaWeblog) (t a : Nat)
    (r0 : QVariant) (rest : List QVariant) (number : Int) (errorString : String)
    (hp : QMap.value q.mCallMap t none = some a) :
    (r0.type ≠ QVariantType.String →
      ∃ (q' : MetaWeblog) (msg : String), slotCreatePosting cv q (r0 :: rest) t = some q' ∧
        q'.emitted = q.emitted ++ [Signal.error ErrorType.ParsingError msg (some a)] ∧
        q'.postings = q.postings) ∧
    (r0.type ≠ QVariantType.Bool →
      ∃ (q' : MetaWeblog) (msg : String), slotModifyPosting q (r0 :: rest) t = some q' ∧
        q'.emitted = q.emitted ++ [Signal.error ErrorType.ParsingError msg (some a)] ∧
        q'.postings = q.postings) ∧
    (r0.type ≠ QVariantType.Map →
      ∃ (q' : MetaWeblog) (msg : String), slotFetchPosting cv q (r0 :: rest) t = some q' ∧
        q'.emitted = q.emitted ++ [Signal.error ErrorType.ParsingError msg (some a)] ∧
        q'.postings = q.postings) ∧
    ((slotError q number errorString t).emitted
        = q.emitted ++ [Signal.error ErrorType.XmlRpc errorString (some a)] ∧
      (slotError q number errorString t).postings = q.postings) := by
  refine ⟨fun h => ⟨_, _, slotCreatePosting_mismatch cv q t a r0 rest hp h, rfl, rfl⟩,
    fun h => ⟨_, _, slotModifyPosting_mismatch q t a r0 rest hp h, rfl, rfl⟩,
    fun h => ⟨_, _, slotFetchPosting_mismatch cv q t a r0 rest hp h, rfl, rfl⟩, ?_⟩
  simp [slotError, index_of_value_some _ _ _ hp, MetaWeblog.emit]

/-- C8 as amended, at a concrete input: a transport fault for the posting
registered under token 0. -/
theorem failed_operation_leaves_posting_unchanged_witness :
    QMap.value (createPosting sampleBlog (some 0)).mCallMap 0 none = some 0 ∧
    (slotError (createPosting sampleBlog (some 0)) 404 "Not Found" 0).emitted
        = [Signal.error ErrorType.XmlRpc "Not Found" (some 0)] ∧
    (slotError (createPosting sampleBlog (some 0)) 404 "Not Found" 0).postings
        = (createPosting sampleBlog (some 0)).postings :=
  ⟨by decide,
    (failed_operation_leaves_posting_unchanged sampleConv (createPosting sampleBlog (some 0))
      0 0 (QVariant.int 3) [] 404 "Not Found" (by decide)).2.2.2⟩

/-! ### Requests and tokens -/

/-- C9. Called with a null posting, each of `createPosting`, `modifyPosting` and
`fetchPosting` emits exactly one signal, an error of kind Other, issues no
remote call, does not advance the call counter and adds no entry to the call
map; `createMedia` with a null media does the same for the media counter and
the media call map. -/
theorem null_object_is_rejected (q : MetaWeblog) :
    (∀ f ∈ [createPosting, modifyPosting, fetchPosting],
      (f q none).emitted
          = q.emitted ++ [Signal.error ErrorType.Other "Posting is a null pointer." none] ∧
        (f q none).calls = q.calls ∧
        (f q none).mCallCounter = q.mCallCounter ∧
        (f q none).mCallMap = q.mCallMap) ∧
    ((createMedia q none).emitted
        = q.emitted ++ [Signal.error ErrorType.Other "Media is a null pointer." none] ∧
      (createMedia q none).calls = q.calls ∧
      (createMedia q none).mCallMediaCounter = q.mCallMediaCounter ∧
      (createMedia q none).mCallMediaMap = q.mCallMediaMap ∧
      (createMedia q none).mCallCounter = q.mCallCounter ∧
      (createMedia q none).mCallMap = q.mCallMap) := by
  refine ⟨?_, rfl, rfl, rfl, rfl, rfl, rfl⟩
  intro f hf
  simp only [List.mem_cons, List.mem_singleton, List.not_mem_nil, or_false] at hf
  rcases hf with rfl | rfl | rfl <;> exact ⟨rfl, rfl, rfl, rfl⟩

/-- Reading back the key that was just written. -/
theorem value_insert_self {κ α : Type} [DecidableEq κ] [QMapKey κ] (m : QMap κ α) (key : κ)
    (v dflt : α) : QMap.value (QMap.insert m key v) key dflt = v := by
  induction m with
  | nil => simp [QMap.insert, QMap.value]
  | cons e rest ih =>
    obtain ⟨k, w⟩ := e
    by_cases h1 : k = key
    · simp [QMap.insert, QMap.value, h1]
    · by_cases h2 : QMapKey.lessThan key k = true
      · simp [QMap.insert, QMap.value, h1, h2]
      · simp [QMap.insert, QMap.value, h1, h2, ih]

/-- What a request does to the adapter: the current counter value becomes the
token, the token is mapped to the posting, the counter is incremented and one
remote call tagged with the token is appended. -/
theorem issue_effect (q : MetaWeblog) (r : Request) :
    (r.issue q).mCallCounter = uintSucc q.mCallCounter ∧
    (r.issue q).mCallMap = QMap.insert q.mCallMap q.mCallCounter (some r.posting) ∧
    (∃ c : RemoteCall, (r.issue q).calls = q.calls ++ [c] ∧
      c.id = QVariant.uint q.mCallCounter) ∧
    (r.issue q).emitted = q.emitted := by
  cases r <;> exact ⟨rfl, rfl, ⟨_, rfl, rfl⟩, rfl⟩

/-- A callback neither advances the counter nor issues a remote call. -/
theorem deliver_keeps_counter (cv : QtConv) (q q1 : MetaWeblog) (r : Response)
    (h : r.deliver cv q = some q1) :
    q1.mCallCounter = q.mCallCounter ∧ q1.calls = q.calls := by
  cases r with
  | created result id =>
    simp only [Response.deliver, slotCreatePosting] at h
    split at h
    · exact Option.noConfusion h
    · split at h
      · cases h; exact ⟨rfl, rfl⟩
      · split at h
        · exact Option.noConfusion h
        · cases h; exact ⟨rfl, rfl⟩
  | modified result id =>
    simp only [Response.deliver, slotModifyPosting] at h
    split at h
    · exact Option.noConfusion h
    · split at h
      · cases h; exact ⟨rfl, rfl⟩
      · split at h
        · exact Option.noConfusion h
        · cases h; exact ⟨rfl, rfl⟩
  | fetched result id =>
    simp only [Response.deliver, slotFetchPosting] at h
    split at h
    · exact Option.noConfusion h
    · split at h
      · cases h; exact ⟨rfl, rfl⟩
      · split at h
        · cases h; exact ⟨rfl, rfl⟩
        · cases h; exact ⟨rfl, rfl⟩
  | fault number errorString id =>
    simp only [Response.deliver, Option.some.injEq] at h
    subst h
    exact ⟨rfl, rfl⟩

/-- The tokens of a run: when the counter does not wrap around, the run ends
with the counter advanced by the number of requests and has issued one remote
call per request, tagged with the successive counter values. -/
theorem runEvents_tokens (cv : QtConv) (es : List Event) :
    ∀ (q q' : MetaWeblog), runEvents cv q es = some q' →
      q.mCallCounter + (requestsOf es).length < 2 ^ 32 →
      q'.mCallCounter = q.mCallCounter + (requestsOf es).length ∧
      ∃ issued : List RemoteCall, q'.calls = q.calls ++ issued ∧
        issued.map RemoteCall.id
          = (List.range' q.mCallCounter (requestsOf es).length).map QVariant.uint := by
  induction es with
  | nil =>
    intro q q' h _
    simp only [runEvents, Option.some.injEq] at h
    subst h
    exact ⟨rfl, [], by simp, by simp [requestsOf]⟩
  | cons e es ih =>
    intro q q' h hlt
    cases e with
    | request r =>
      simp only [runEvents] at h
      simp only [requestsOf, List.length_cons] at hlt ⊢
      obtain ⟨hc, -, ⟨c, hcalls, hid⟩, -⟩ := issue_effect q r
      have hsucc : (r.issue q).mCallCounter = q.mCallCounter + 1 := by
        rw [hc, uintSucc]
        exact Nat.mod_eq_of_lt (by omega)
      obtain ⟨h1, issued, h2, h3⟩ := ih (r.issue q) q' h (by omega)
      refine ⟨by omega, c :: issued, ?_, ?_⟩
      · rw [h2, hcalls]
        simp
      · rw [List.map_cons, h3, hid, hsucc, List.range'_succ, List.map_cons]
    | response r =>
      simp only [runEvents] at h
      simp only [requestsOf] at hlt ⊢
      cases hd : r.deliver cv q with
      | none => simp [hd] at h
      | some q1 =>
        simp only [hd] at h
        obtain ⟨hc, hcalls⟩ := deliver_keeps_counter cv q q1 r hd
        obtain ⟨h1, issued, h2, h3⟩ := ih q1 q' h (by omega)
        exact ⟨by omega, issued, by rw [h2, hcalls], by rw [h3, hc]⟩

/-- A run that consists of requests only always completes. -/
theorem runEvents_requests_total (cv : QtConv) (rs : List Request) :
    ∀ q : MetaWeblog, ∃ q' : MetaWeblog, runEvents cv q (rs.map Event.request) = some q' := by
  induction rs with
  | nil => exact fun q => ⟨q, rfl⟩
  | cons r rs ih => exact fun q => ih (r.issue q)

/-- C10. Take an adapter whose counter is below 2 ^ 31 and any run of fewer
than 2 ^ 31 requests `createPosting`, `modifyPosting`, `fetchPosting` with
non-null postings, interleaved in any way with result and fault callbacks.
In every state whose counter is not the largest unsigned value, a request
takes the current counter value as its token: it issues exactly one remote
call tagged with that value, maps the value to its posting in the call map and
advances the counter by exactly one.  Over the whole run the
remote calls issued are exactly one per request, and their tokens are the
successive counter values: strictly increasing and pairwise distinct, so a
token released by a callback during the run is never issued again.  Callbacks
leave the counter alone, and a run of requests alone always completes. -/
theorem tokens_strictly_increasing (cv : QtConv) (q q' : MetaWeblog) (es : List Event)
    (hbase : q.mCallCounter < 2 ^ 31) (hn : (requestsOf es).length < 2 ^ 31)
    (hrun : runEvents cv q es = some q') :
    (∀ (s : MetaWeblog) (r : Request), s.mCallCounter + 1 < 2 ^ 32 →
      (∃ c : RemoteCall, (r.issue s).calls = s.calls ++ [c] ∧
        c.id = QVariant.uint s.mCallCounter) ∧
      QMap.value (r.issue s).mCallMap s.mCallCounter none = some r.posting ∧
      (r.issue s).mCallCounter = s.mCallCounter + 1) ∧
    (∃ (tokens : List Nat) (issued : List RemoteCall),
      q'.calls = q.calls ++ issued ∧
      issued.map RemoteCall.id = tokens.map QVariant.uint ∧
      tokens = List.range' q.mCallCounter (requestsOf es).length ∧
      tokens.Pairwise (fun s t => s < t) ∧
      tokens.Nodup) ∧
    q'.mCallCounter = q.mCallCounter + (requestsOf es).length ∧
    (∀ rs : List Request, ∃ q'' : MetaWeblog,
      runEvents cv q (rs.map Event.request) = some q'') := by
  have h32 : (2 : Nat) ^ 32 = 2 ^ 31 + 2 ^ 31 := by norm_num
  obtain ⟨h1, issued, h2, h3⟩ := runEvents_tokens cv es q q' hrun (by omega)
  refine ⟨?_, ⟨_, issued, h2, h3, rfl, ?_, ?_⟩, h1, fun rs => runEvents_requests_total cv rs q⟩
  · intro s r hs
    obtain ⟨hc, hm, hcall, -⟩ := issue_effect s r
    refine ⟨hcall, ?_, ?_⟩
    · rw [hm, value_insert_self]
    · rw [hc, uintSucc]
      exact Nat.mod_eq_of_lt hs
  · exact List.pairwise_lt_range' _ _
  · exact List.nodup_range' _ _

/-- C10 at a concrete run: three requests with a release and a fault in
between, from counter 0; the tokens issued are 0, 1, 2. -/
theorem tokens_strictly_increasing_witness :
    sampleBlog.mCallCounter < 2 ^ 31 ∧ (requestsOf sampleRun).length < 2 ^ 31 ∧
    ∃ q' : MetaWeblog, runEvents sampleConv sampleBlog sampleRun = some q' ∧
      (∃ issued : List RemoteCall, q'.calls = sampleBlog.calls ++ issued ∧
        issued.map RemoteCall.id = [QVariant.uint 0, QVariant.uint 1, QVariant.uint 2]) ∧
      q'.mCallCounter = 3 := by
  refine ⟨by decide, by decide, ?_⟩
  obtain ⟨q', hq⟩ : ∃ q', runEvents sampleConv sampleBlog sampleRun = some q' := ⟨_, rfl⟩
  obtain ⟨-, ⟨tokens, issued, h2, h3, h4, -, -⟩, h1, -⟩ :=
    tokens_strictly_increasing sampleConv sampleBlog q' sampleRun (by decide) (by decide) hq
  exact ⟨q', hq, ⟨issued, h2, by rw [h3, h4]; rfl⟩, h1⟩

/-! ### Release of tokens -/

/-- A removed key is no longer in the map. -/
theorem contains_remove_self {κ α : Type} [DecidableEq κ] (m : QMap κ α) (key : κ) :
    QMap.contains (QMap.remove m key) key = false := by
  simp [QMap.contains, QMap.remove]

/-- The call map after `slotCreatePosting` has returned. -/
theorem slotCreatePosting_call_map (cv : QtConv) (q q' : MetaWeblog) (result : List QVariant)
    (t : Nat) (h : slotCreatePosting cv q result t = some q') :
    q'.mCallMap = QMap.remove (QMap.index q.mCallMap t none).2 t := by
  simp only [slotCreatePosting] at h
  split at h
  · exact Option.noConfusion h
  · split at h
    · cases h; rfl
    · split at h
      · exact Option.noConfusion h
      · cases h; rfl

/-- The call map after `slotModifyPosting` has returned. -/
theorem slotModifyPosting_call_map (q q' : MetaWeblog) (result : List QVariant)
    (t : Nat) (h : slotModifyPosting q result t = some q') :
    q'.mCallMap = QMap.remove (QMap.index q.mCallMap t none).2 t := by
  simp only [slotModifyPosting] at h
  split at h
  · exact Option.noConfusion h
  · split at h
    · cases h; rfl
    · split at h
      · exact Option.noConfusion h
      · cases h; rfl

/-- The call map after `slotFetchPosting` has returned. -/
theorem slotFetchPosting_call_map (cv : QtConv) (q q' : MetaWeblog) (result : List QVariant)
    (t : Nat) (h : slotFetchPosting cv q result t = some q') :
    q'.mCallMap = QMap.remove (QMap.index q.mCallMap t none).2 t := by
  simp only [slotFetchPosting] at h
  split at h
  · exact Option.noConfusion h
  · split at h
    · cases h; rfl
    · split at h
      · cases h; rfl
      · cases h; rfl

/-- With a posting pending under the token, each result slot returns normally
on a non-empty result. -/
theorem result_slots_return (cv : QtConv) (q : MetaWeblog) (t a : Nat) (r0 : QVariant)
    (rest : List QVariant) (hp : QMap.value q.mCallMap t none = some a) :
    (slotCreatePosting cv q (r0 :: rest) t).isSome = true ∧
    (slotModifyPosting q (r0 :: rest) t).isSome = true ∧
    (slotFetchPosting cv q (r0 :: rest) t).isSome = true := by
  refine ⟨?_, ?_, ?_⟩
  · simp only [slotCreatePosting, index_of_value_some _ _ _ hp]
    split <;> rfl
  · simp only [slotModifyPosting, index_of_value_some _ _ _ hp]
    split <;> rfl
  · simp only [slotFetchPosting, index_of_value_some _ _ _ hp]
    split
    · rfl
    · split <;> rfl

/-- C11. Whenever `slotCreatePosting`, `slotModifyPosting` or `slotFetchPosting`
has handled token `t` and returned, whatever the result was, `t` is not a key
of the call map: looking the token up again finds nothing (the null pointer),
not the posting of the first lookup.  With a posting pending under `t` and a
non-empty result each of the three slots does return. -/
theorem handled_token_is_released (cv : QtConv) (q : MetaWeblog) (t : Nat) :
    (∀ (result : List QVariant) (q' : MetaWeblog),
      (slotCreatePosting cv q result t = some q' ∨ slotModifyPosting q result t = some q' ∨
        slotFetchPosting cv q result t = some q') →
      QMap.contains q'.mCallMap t = false ∧
      QMap.value q'.mCallMap t none = none ∧
      QMap.index q'.mCallMap t none = (none, QMap.insert q'.mCallMap t none)) ∧
    (∀ (a : Nat) (r0 : QVariant) (rest : List QVariant),
      QMap.value q.mCallMap t none = some a →
      (slotCreatePosting cv q (r0 :: rest) t).isSome = true ∧
      (slotModifyPosting q (r0 :: rest) t).isSome = true ∧
      (slotFetchPosting cv q (r0 :: rest) t).isSome = true) := by
  refine ⟨?_, fun a r0 rest hp => result_slots_return cv q t a r0 rest hp⟩
  intro result q' h
  have hm : q'.mCallMap = QMap.remove (QMap.index q.mCallMap t none).2 t := by
    rcases h with h | h | h
    · exact slotCreatePosting_call_map cv q q' result t h
    · exact slotModifyPosting_call_map q q' result t h
    · exact slotFetchPosting_call_map cv q q' result t h
  have hc : QMap.contains q'.mCallMap t = false := by
    rw [hm]
    exact contains_remove_self _ _
  refine ⟨hc, value_of_not_contains _ _ _ hc, ?_⟩
  simp [QMap.index, hc]

/-- C11 at a concrete input: the posting registered by `createPosting` under
token 0 and the result 42. -/
theorem handled_token_is_released_witness :
    ∃ q' : MetaWeblog,
      slotCreatePosting sampleConv (createPosting sampleBlog (some 0)) [QVariant.string "42"] 0
        = some q' ∧
      QMap.value (createPosting sampleBlog (some 0)).mCallMap 0 none = some 0 ∧
      QMap.contains q'.mCallMap 0 = false ∧
      QMap.value q'.mCallMap 0 none = none :=
  ⟨_, rfl, by decide,
    ((handled_token_is_released sampleConv (createPosting sampleBlog (some 0)) 0).1
      [QVariant.string "42"] _ (Or.inl rfl)).1,
    ((handled_token_is_released sampleConv (createPosting sampleBlog (some 0)) 0).1
      [QVariant.string "42"] _ (Or.inl rfl)).2.1⟩

/-- C12, the code at the failing input: a posting is pending under token 0 and
the transport reports a fault for token 0.  After `slotError` the token is
still a key of the call map, which is unchanged; for a token that was not a
key (7), `slotError` even adds a null entry. -/
theorem slotError_keeps_entry :
    QMap.value (createPosting sampleBlog (some 0)).mCallMap 0 none = some 0 ∧
    QMap.contains (slotError (createPosting sampleBlog (some 0)) 404 "Not Found" 0).mCallMap 0
      = true ∧
    (slotError (createPosting sampleBlog (some 0)) 404 "Not Found" 0).mCallMap
      = (createPosting sampleBlog (some 0)).mCallMap ∧
    QMap.contains (slotError sampleBlog 404 "Not Found" 7).mCallMap 7 = true := by
  decide

/-- C13, the code at the failing input: token 5 is not a key of the call map.
`slotCreatePosting` with a String result and `slotModifyPosting` with a Bool
result look up a null pointer and call a setter through it, which is undefined
behaviour (`none`).  `slotFetchPosting` does what the claim asks: it reports
an error without a posting. -/
theorem unknown_token_dereferences_null :
    QMap.contains sampleBlog.mCallMap 5 = false ∧
    slotCreatePosting sampleConv sampleBlog [QVariant.string "42"] 5 = none ∧
    slotModifyPosting sampleBlog [QVariant.bool true] 5 = none ∧
    (∃ q' : MetaWeblog,
      slotFetchPosting sampleConv sampleBlog [QVariant.map []] 5 = some q' ∧
      q'.emitted = [Signal.error ErrorType.ParsingError "Could not read posting." none]) :=
  ⟨rfl, rfl, rfl, _, rfl, rfl⟩

/-- C14. For a posting pending under token `t`, `slotError` emits exactly one
signal: an error of kind XmlRpc whose message is the fault string and whose
posting is the pending posting.  The fault number has no influence on the
outcome. -/
theorem slotError_emits_transport_fault (q : MetaWeblog) (t a : Nat) (number : Int)
    (errorString : String) (hp : QMap.value q.mCallMap t none = some a) :
    (slotError q number errorString t).emitted
      = q.emitted ++ [Signal.error ErrorType.XmlRpc errorString (some a)] ∧
    ∀ other : Int, slotError q other errorString t = slotError q number errorString t := by
  refine ⟨?_, fun _ => rfl⟩
  simp [slotError, index_of_value_some _ _ _ hp, MetaWeblog.emit]

/-- C14 at a concrete input: fault 404 for the posting registered by
`fetchPosting` under token 0. -/
theorem slotError_emits_transport_fault_witness :
    QMap.value (fetchPosting sampleBlog (some 0)).mCallMap 0 none = some 0 ∧
    (slotError (fetchPosting sampleBlog (some 0)) 404 "Not Found" 0).emitted
      = [Signal.error ErrorType.XmlRpc "Not Found" (some 0)] :=
  ⟨by decide,
    (slotError_emits_transport_fault (fetchPosting sampleBlog (some 0)) 0 0 404 "Not Found"
      (by decide)).1⟩
/-! ### Arguments of the remote calls -/

/-- C15, the claim fails for an empty id: with an empty blog id `createPosting`
sends four arguments, username first, and with an empty posting id so does
`modifyPosting`. -/
theorem empty_id_is_left_out :
    (∃ c : RemoteCall, (createPosting sampleBlogNoId (some 0)).calls = [c] ∧
      c.method = "metaWeblog.newPost" ∧
      c.args = [QVariant.string "u", QVariant.string "p",
        QVariant.map [("categories", QVariant.stringList ["Blogroll"]),
          ("dateCreated", QVariant.dateTime QDateTime.null),
          ("description", QVariant.string "C"), ("title", QVariant.string "T")],
        QVariant.bool true]) ∧
    (∃ c : RemoteCall, (modifyPosting sampleBlog (some 0)).calls = [c] ∧
      c.method = "metaWeblog.editPost" ∧
      (sampleBlog.postings 0).mPostingId = "" ∧
      c.args.length = 4) :=
  ⟨⟨_, rfl, rfl, rfl⟩, ⟨_, rfl, rfl, rfl, rfl⟩⟩

/-- C15 as amended. For a non-null posting, `createPosting` issues exactly one
call, `metaWeblog.newPost`, and `modifyPosting` exactly one call,
`metaWeblog.editPost`.  The argument list is the id (the blog id for create,
the posting id for modify) when that id is not empty and nothing when it is
empty, followed by username, password, the payload map and the publish flag
`!isPrivate`.  The payload map has exactly the keys categories, description,
title and dateCreated (create) or lastModified (modify), holding the categories,
content, title and the UTC date-time of the posting. -/
theorem posting_call_arguments (q : MetaWeblog) (a : Nat) :
    (∃ c : RemoteCall, (createPosting q (some a)).calls = q.calls ++ [c] ∧
      c.method = "metaWeblog.newPost" ∧
      c.args = (if q.blogId ≠ "" then [QVariant.string q.blogId] else []) ++
        [QVariant.string q.username, QVariant.string q.password,
          QVariant.map [("categories", QVariant.stringList (q.postings a).mCategories),
            ("dateCreated", QVariant.dateTime (q.postings a).mCreationDateTime.toUtc.dateTime),
            ("description", QVariant.string (q.postings a).mContent),
            ("title", QVariant.string (q.postings a).mTitle)],
          QVariant.bool (!(q.postings a).mPrivate)]) ∧
    (∃ c : RemoteCall, (modifyPosting q (some a)).calls = q.calls ++ [c] ∧
      c.method = "metaWeblog.editPost" ∧
      c.args = (if (q.postings a).mPostingId ≠ "" then
          [QVariant.string (q.postings a).mPostingId] else []) ++
        [QVariant.string q.username, QVariant.string q.password,
          QVariant.map [("categories", QVariant.stringList (q.postings a).mCategories),
            ("description", QVariant.string (q.postings a).mContent),
            ("lastModified",
              QVariant.dateTime (q.postings a).mModificationDateTime.toUtc.dateTime),
            ("title", QVariant.string (q.postings a).mTitle)],
          QVariant.bool (!(q.postings a).mPrivate)]) := by
  refine ⟨⟨_, rfl, rfl, ?_⟩, ⟨_, rfl, rfl, ?_⟩⟩
  · simp only [defaultArgs, List.append_assoc]
    rfl
  · simp only [defaultArgs, List.append_assoc]
    rfl

/-! ### Reading a posting from a map -/

/-- The record `readPostingFromMap` produces, attribute by attribute. -/
theorem readPostingFromMap_eq (cv : QtConv) (p : BlogPosting) (m : QMap String QVariant) :
    readPostingFromMap cv (some p) m = (true, some
      { mPrivate := p.mPrivate,
        mPostingId := (QMap.value m "postid" QVariant.invalid).toString cv,
        mTitle := (QMap.value m "title" QVariant.invalid).toString cv,
        mContent := (QMap.value m "description" QVariant.invalid).toString cv,
        mCategories :=
          if ((QMap.value m "categories" QVariant.invalid).toStringList cv).isEmpty = true
          then p.mCategories
          else (QMap.value m "categories" QVariant.invalid).toStringList cv,
        mError := p.mError,
        mStatus := p.mStatus,
        mCreationDateTime :=
          if ((QMap.value m "dateCreated" QVariant.invalid).toDateTime cv).isValid = true
          then KDateTime.ofUTC ((QMap.value m "dateCreated" QVariant.invalid).toDateTime cv)
          else p.mCreationDateTime,
        mModificationDateTime :=
          if ((QMap.value m "lastModified" QVariant.invalid).toDateTime cv).isValid = true
          then KDateTime.ofUTC ((QMap.value m "lastModified" QVariant.invalid).toDateTime cv)
          else p.mModificationDateTime }) := by
  have hv : ∀ d : QDateTime,
      ((KDateTime.ofUTC d).isValid && !(KDateTime.ofUTC d).isNull) = d.isValid := by
    intro d
    cases d <;> rfl
  simp only [readPostingFromMap, hv]
  cases ((QMap.value m "dateCreated" QVariant.invalid).toDateTime cv).isValid <;>
    cases ((QMap.value m "lastModified" QVariant.invalid).toDateTime cv).isValid <;>
    cases ((QMap.value m "categories" QVariant.invalid).toStringList cv).isEmpty <;> rfl

/-- C16. `readPostingFromMap` on an existing posting succeeds, and for each of
the pairs (`dateCreated`, creation date-time) and (`lastModified`, modification
date-time): when the entry converts to a valid date-time the field becomes that
date-time expressed in UTC; when the entry does not convert to a valid
date-time, and in particular when the key is missing, the field keeps its
prior value. -/
theorem readPostingFromMap_dates (cv : QtConv) (p : BlogPosting) (m : QMap String QVariant) :
    ∃ p' : BlogPosting, readPostingFromMap cv (some p) m = (true, some p') ∧
      (∀ c : Int, (QMap.value m "dateCreated" QVariant.invalid).toDateTime cv = QDateTime.valid c →
        p'.mCreationDateTime = KDateTime.ofUTC (QDateTime.valid c)) ∧
      (((QMap.value m "dateCreated" QVariant.invalid).toDateTime cv).isValid = false →
        p'.mCreationDateTime = p.mCreationDateTime) ∧
      (QMap.contains m "dateCreated" = false → p'.mCreationDateTime = p.mCreationDateTime) ∧
      (∀ c : Int, (QMap.value m "lastModified" QVariant.invalid).toDateTime cv = QDateTime.valid c →
        p'.mModificationDateTime = KDateTime.ofUTC (QDateTime.valid c)) ∧
      (((QMap.value m "lastModified" QVariant.invalid).toDateTime cv).isValid = false →
        p'.mModificationDateTime = p.mModificationDateTime) ∧
      (QMap.contains m "lastModified" = false →
        p'.mModificationDateTime = p.mModificationDateTime) := by
  refine ⟨_, readPostingFromMap_eq cv p m, ?_, ?_, ?_, ?_, ?_, ?_⟩
  · intro c hc
    simp [hc, QDateTime.isValid]
  · intro hv
    simp [hv]
  · intro hc
    simp [value_of_not_contains _ _ _ hc, QVariant.toDateTime, QDateTime.isValid]
  · intro c hc
    simp [hc, QDateTime.isValid]
  · intro hv
    simp [hv]
  · intro hc
    simp [value_of_not_contains _ _ _ hc, QVariant.toDateTime, QDateTime.isValid]

/-- C17. `readPostingFromMap` on an existing posting succeeds and sets the
posting id to the string conversion of the `postid` entry unconditionally (the
string itself for a String, the empty string when the key is missing); it sets
the categories to the string list of the `categories` entry when that list is
not empty and keeps the prior categories when it is empty. -/
theorem readPostingFromMap_id_and_categories (cv : QtConv) (p : BlogPosting)
    (m : QMap String QVariant) :
    ∃ p' : BlogPosting, readPostingFromMap cv (some p) m = (true, some p') ∧
      p'.mPostingId = (QMap.value m "postid" QVariant.invalid).toString cv ∧
      (∀ s, QMap.value m "postid" QVariant.invalid = QVariant.string s → p'.mPostingId = s) ∧
      (QMap.contains m "postid" = false → p'.mPostingId = "") ∧
      ((QMap.value m "categories" QVariant.invalid).toStringList cv ≠ [] →
        p'.mCategories = (QMap.value m "categories" QVariant.invalid).toStringList cv) ∧
      ((QMap.value m "categories" QVariant.invalid).toStringList cv = [] →
        p'.mCategories = p.mCategories) ∧
      (∀ l, QMap.value m "categories" QVariant.invalid = QVariant.stringList l → l ≠ [] →
        p'.mCategories = l) := by
  refine ⟨_, readPostingFromMap_eq cv p m, rfl, ?_, ?_, ?_, ?_, ?_⟩
  · intro s hs
    simp [hs, QVariant.toString]
  · intro hc
    simp [value_of_not_contains _ _ _ hc, QVariant.toString]
  · intro hne
    simp [hne]
  · intro he
    simp [he]
  · intro l hl hne
    simp [hl, QVariant.toStringList, hne]

/-- C18, the claim fails: reading the empty map into a posting with title T
and content C succeeds and leaves both the title and the content empty. -/
theorem readPostingFromMap_clears_title :
    ∃ p' : BlogPosting, readPostingFromMap sampleConv (some samplePosting) [] = (true, some p') ∧
      samplePosting.mTitle = "T" ∧ samplePosting.mContent = "C" ∧
      p'.mTitle = "" ∧ p'.mContent = "" :=
  ⟨_, rfl, rfl, rfl, rfl, rfl⟩

/-- C18 as amended. `readPostingFromMap` on an existing posting succeeds and
sets the title and the content unconditionally to the string conversions of
the `title` and `description` entries: the empty string when the key is
missing or the entry is invalid, a Map or a List. -/
theorem readPostingFromMap_title_and_content (cv : QtConv) (p : BlogPosting)
    (m : QMap String QVariant) :
    ∃ p' : BlogPosting, readPostingFromMap cv (some p) m = (true, some p') ∧
      p'.mTitle = (QMap.value m "title" QVariant.invalid).toString cv ∧
      p'.mContent = (QMap.value m "description" QVariant.invalid).toString cv ∧
      (QMap.contains m "title" = false → p'.mTitle = "") ∧
      (QMap.contains m "description" = false → p'.mContent = "") ∧
      ((QMap.value m "title" QVariant.invalid).type ∈
          [QVariantType.Invalid, QVariantType.Map, QVariantType.List] → p'.mTitle = "") ∧
      ((QMap.value m "description" QVariant.invalid).type ∈
          [QVariantType.Invalid, QVariantType.Map, QVariantType.List] → p'.mContent = "") := by
  have ht : ∀ v : QVariant,
      v.type ∈ [QVariantType.Invalid, QVariantType.Map, QVariantType.List] →
      v.toString cv = "" := by
    intro v hv
    cases v <;> simp [QVariant.type] at hv <;> rfl
  refine ⟨_, readPostingFromMap_eq cv p m, rfl, rfl, ?_, ?_, ht _, ht _⟩
  · intro hc
    simp [value_of_not_contains _ _ _ hc, QVariant.toString]
  · intro hc
    simp [value_of_not_contains _ _ _ hc, QVariant.toString]

/-! ### Media and recent postings -/

/-- C19. For a media object pending under media token `t` and a result whose
first element is the Map `m`, `slotCreateMedia` returns normally and the token
is no longer a key of the media call map.  When the `url` entry is a non-empty
string the media gets that url and status Created and exactly one signal,
`createdMedia`, is emitted; when the entry is missing or the empty string
no signal is emitted and no media object is changed. -/
theorem slotCreateMedia_map_result (cv : QtConv) (q : MetaWeblog) (t a : Nat)
    (m : QMap String QVariant) (rest : List QVariant)
    (hp : QMap.value q.mCallMediaMap t none = some a) :
    ∃ q' : MetaWeblog,
      slotCreateMedia cv q (QVariant.map m :: rest) t = some q' ∧
      QMap.contains q'.mCallMediaMap t = false ∧
      (∀ u, QMap.value m "url" QVariant.invalid = QVariant.string u → u ≠ "" →
        q'.medias a = { q.medias a with mUrl := u, mStatus := MediaStatus.Created } ∧
        (∀ b, b ≠ a → q'.medias b = q.medias b) ∧
        q'.emitted = q.emitted ++ [Signal.createdMedia (some a)]) ∧
      ((QMap.contains m "url" = false ∨ QMap.value m "url" QVariant.invalid = QVariant.string "") →
        q'.medias = q.medias ∧ q'.emitted = q.emitted) := by
  by_cases hu : (QMap.value m "url" QVariant.invalid).toString cv = ""
  · refine ⟨{ q with mCallMediaMap := QMap.remove q.mCallMediaMap t }, ?_,
      contains_remove_self _ _, ?_, fun _ => ⟨rfl, rfl⟩⟩
    · simp [slotCreateMedia, index_of_value_some _ _ _ hp, QVariant.type, QVariantType.toNat,
        QVariant.toMap, hu]
    · intro u hv hne
      rw [hv] at hu
      exact absurd hu hne
  · refine ⟨((({ q with mCallMediaMap := QMap.remove q.mCallMediaMap t } : MetaWeblog).setMedia a
        { q.medias a with mUrl := (QMap.value m "url" QVariant.invalid).toString cv }).setMedia a
        { q.medias a with mUrl := (QMap.value m "url" QVariant.invalid).toString cv,
                          mStatus := MediaStatus.Created }).emit
        (Signal.createdMedia (some a)), ?_, contains_remove_self _ _, ?_, ?_⟩
    · simp [slotCreateMedia, index_of_value_some _ _ _ hp, QVariant.type, QVariantType.toNat,
        QVariant.toMap, hu, MetaWeblog.setMedia]
    · intro u hv _
      refine ⟨?_, ?_, rfl⟩
      · simp [MetaWeblog.emit, MetaWeblog.setMedia, hv, QVariant.toString]
      · intro b hb
        simp [MetaWeblog.emit, MetaWeblog.setMedia, hb]
    · intro h
      exfalso
      apply hu
      rcases h with h | h
      · simp [value_of_not_contains _ _ _ h, QVariant.toString]
      · simp [h, QVariant.toString]

/-- C19 at a concrete input: the media registered by `createMedia` under media
token 1 and a result with a url. -/
theorem slotCreateMedia_map_result_witness :
    QMap.value (createMedia sampleBlog (some 0)).mCallMediaMap 1 none = some 0 ∧
    ∃ q' : MetaWeblog,
      slotCreateMedia sampleConv (createMedia sampleBlog (some 0))
        [QVariant.map [("url", QVariant.string "http://example.org/a.txt")]] 1 = some q' ∧
      QMap.contains q'.mCallMediaMap 1 = false ∧
      (q'.medias 0).mUrl = "http://example.org/a.txt" ∧
      (q'.medias 0).mStatus = MediaStatus.Created ∧
      q'.emitted = [Signal.createdMedia (some 0)] := by
  refine ⟨by decide, ?_⟩
  obtain ⟨q', h1, h2, h3, -⟩ := slotCreateMedia_map_result sampleConv
    (createMedia sampleBlog (some 0)) 1 0 [("url", QVariant.string "http://example.org/a.txt")]
    [] (by decide)
  obtain ⟨h4, -, h5⟩ := h3 "http://example.org/a.txt" rfl (by decide)
  exact ⟨q', h1, h2, by rw [h4], by rw [h4], h5⟩

/-- The loop of `slotListRecentPostings` with a positive count: it reads the
first `n + 1` elements, in order, and emits nothing. -/
theorem listRecentLoop_take (cv : QtConv) (l : List QVariant) :
    ∀ (n : Nat) (acc : List BlogPosting) (q : MetaWeblog),
      ∃ ps : List BlogPosting,
        listRecentLoop cv l ((n : Int) + 1) acc q = (acc ++ ps, q) ∧
        List.Forall₂
          (fun it p => readPostingFromMap cv (some BlogPosting.default) it.toMap = (true, some p))
          (l.take (n + 1)) ps := by
  induction l with
  | nil =>
    intro n acc q
    exact ⟨[], by simp [listRecentLoop], by simp⟩
  | cons it rest ih =>
    intro n acc q
    obtain ⟨p, hp⟩ := readPostingFromMap_some cv BlogPosting.default it.toMap
    cases n with
    | zero =>
      refine ⟨[p], ?_, ?_⟩
      · simp [listRecentLoop, hp]
      · simp [hp]
    | succ k =>
      obtain ⟨ps, h1, h2⟩ := ih k (acc ++ [p]) q
      refine ⟨p :: ps, ?_, ?_⟩
      · have hne : ¬ ((k : Int) + 1 = 0) := by omega
        have he : (k : Int) + 1 + 1 - 1 = (k : Int) + 1 := by omega
        simp only [listRecentLoop, hp, Nat.cast_add, Nat.cast_one, he, if_neg hne, h1]
        simp
      · simp only [List.take_succ_cons]
        exact List.Forall₂.cons hp h2

/-- C20. For a requested number `n` of at least 1 and a result whose first
element is a List, `slotListRecentPostings` emits exactly one signal,
`listedRecentPostings`, and no error.  The list it carries has the length of
the smaller of `n` and the payload length, and its i-th posting is the fresh
posting read from the i-th payload element with `readPostingFromMap`. -/
theorem slotListRecentPostings_list_payload (cv : QtConv) (q : MetaWeblog)
    (l : List QVariant) (rest : List QVariant) (n : Int) (hn : 1 ≤ n) :
    ∃ (postings : List BlogPosting) (q' : MetaWeblog),
      slotListRecentPostings cv q (QVariant.list l :: rest) n = some q' ∧
      q'.emitted = q.emitted ++ [Signal.listedRecentPostings postings] ∧
      postings.length = min n.toNat l.length ∧
      List.Forall₂
        (fun it p => readPostingFromMap cv (some BlogPosting.default) it.toMap = (true, some p))
        (l.take n.toNat) postings := by
  obtain ⟨k, rfl⟩ : ∃ k : Nat, n = (k : Int) + 1 := ⟨(n - 1).toNat, by omega⟩
  obtain ⟨ps, h1, h2⟩ := listRecentLoop_take cv l k [] q
  have hk : ((k : Int) + 1).toNat = k + 1 := by omega
  rw [hk]
  refine ⟨ps, q.emit (Signal.listedRecentPostings ps), ?_, rfl, ?_, h2⟩
  · simp [slotListRecentPostings, QVariant.type, QVariant.toList, h1]
  · have := h2.length_eq
    simp only [List.length_take] at this
    omega

/-- C20 at a concrete input: two postings are requested and the server sends
three. -/
theorem slotListRecentPostings_list_payload_witness :
    (1 : Int) ≤ 2 ∧
    ∃ (postings : List BlogPosting) (q' : MetaWeblog),
      slotListRecentPostings sampleConv sampleBlog
        [QVariant.list [QVariant.map [("postid", QVariant.string "3")],
          QVariant.map [("postid", QVariant.string "2")],
          QVariant.map [("postid", QVariant.string "1")]]] 2 = some q' ∧
      q'.emitted = sampleBlog.emitted ++ [Signal.listedRecentPostings postings] ∧
      postings.length = 2 :=
  ⟨by decide,
    (slotListRecentPostings_list_payload sampleConv sampleBlog
      [QVariant.map [("postid", QVariant.string "3")],
        QVariant.map [("postid", QVariant.string "2")],
        QVariant.map [("postid", QVariant.string "1")]] [] 2 (by decide)).imp
      fun _ h => h.imp fun _ h => ⟨h.1, h.2.1, h.2.2.1⟩⟩

/-! ### Recent postings: number zero and malformed payloads -/

/-- The loop of `slotListRecentPostings` with a count that is zero or negative:
the decremented count never reaches zero, so every element is read, in order,
and nothing is emitted. -/
theorem listRecentLoop_all (cv : QtConv) (l : List QVariant) :
    ∀ (count : Int) (acc : List BlogPosting) (q : MetaWeblog), count ≤ 0 →
      ∃ ps : List BlogPosting,
        listRecentLoop cv l count acc q = (acc ++ ps, q) ∧
        List.Forall₂
          (fun it p => readPostingFromMap cv (some BlogPosting.default) it.toMap = (true, some p))
          l ps := by
  induction l with
  | nil =>
    intro count acc q _
    exact ⟨[], by simp [listRecentLoop], List.Forall₂.nil⟩
  | cons it rest ih =>
    intro count acc q hc
    obtain ⟨p, hp⟩ := readPostingFromMap_some cv BlogPosting.default it.toMap
    obtain ⟨ps, h1, h2⟩ := ih (count - 1) (acc ++ [p]) q (by omega)
    have hne : ¬ (count - 1 = 0) := by omega
    refine ⟨p :: ps, ?_, List.Forall₂.cons hp h2⟩
    simp only [listRecentLoop, hp, if_neg hne, h1]
    simp

/-- C21. For the requested number 0 the adapter takes the second alternative:
`listRecentPostings( 0 )` issues one call `metaWeblog.getRecentPosts` tagged
with 0, and `slotListRecentPostings` with id 0 on a List payload emits exactly
one signal, `listedRecentPostings`, whose list has one posting for every
element of the payload, in order: the decremented count never reaches zero, so
nothing is cut off.  (A `QList` has fewer than 2 ^ 31 elements, so the count
cannot wrap around.) -/
theorem listRecentPostings_zero (cv : QtConv) (q : MetaWeblog) (l : List QVariant)
    (rest : List QVariant) :
    (∃ c : RemoteCall, (listRecentPostings q 0).calls = q.calls ++ [c] ∧
      c.method = "metaWeblog.getRecentPosts" ∧
      c.resultSlot = Slot.slotListRecentPostings ∧
      c.id = QVariant.int 0) ∧
    ∃ (postings : List BlogPosting) (q' : MetaWeblog),
      slotListRecentPostings cv q (QVariant.list l :: rest) 0 = some q' ∧
      q'.emitted = q.emitted ++ [Signal.listedRecentPostings postings] ∧
      postings.length = l.length ∧
      List.Forall₂
        (fun it p => readPostingFromMap cv (some BlogPosting.default) it.toMap = (true, some p))
        l postings := by
  refine ⟨⟨_, rfl, rfl, rfl, rfl⟩, ?_⟩
  obtain ⟨ps, h1, h2⟩ := listRecentLoop_all cv l 0 [] q (le_refl 0)
  refine ⟨ps, q.emit (Signal.listedRecentPostings ps), ?_, rfl, h2.length_eq.symm, h2⟩
  simp [slotListRecentPostings, QVariant.type, QVariant.toList, h1]

/-- C22, the code at the failing input: the payload is the number 42 and five
postings were requested.  `slotListRecentPostings` emits the ParsingError and
then, after the branch, also `listedRecentPostings` with the empty list. -/
theorem slotListRecentPostings_error_and_list :
    ∃ q' : MetaWeblog,
      slotListRecentPostings sampleConv sampleBlog [QVariant.int 42] 5 = some q' ∧
      q'.emitted = [Signal.error ErrorType.ParsingError
          "Could not fetch list of postings out of the result from the server." none,
        Signal.listedRecentPostings []] :=
  ⟨_, rfl, rfl⟩

/-- The loop of `slotListRecentPostings` never emits, whatever the count. -/
theorem listRecentLoop_silent (cv : QtConv) (l : List QVariant) (count : Int)
    (acc : List BlogPosting) (q : MetaWeblog) :
    ∃ ps : List BlogPosting, listRecentLoop cv l count acc q = (acc ++ ps, q) := by
  by_cases hc : count ≤ 0
  · obtain ⟨ps, h, -⟩ := listRecentLoop_all cv l count acc q hc
    exact ⟨ps, h⟩
  · obtain ⟨k, rfl⟩ : ∃ k : Nat, count = (k : Int) + 1 := ⟨(count - 1).toNat, by omega⟩
    obtain ⟨ps, h, -⟩ := listRecentLoop_take cv l k acc q
    exact ⟨ps, h⟩

/-! ### The first element of the result -/

/-- The result of `slotListCategories` on a Map payload. -/
theorem slotListCategories_map_eq (cv : QtConv) (q : MetaWeblog) (m : QMap String QVariant)
    (rest : List QVariant) :
    slotListCategories cv q (QVariant.map m :: rest) =
      some (q.emit (Signal.listedCategories ((QMap.keys m).map (categoryOfKey cv m)))) := by
  simp [slotListCategories, QVariant.type, QVariant.toMap]

/-- The result of `slotListCategories` on a List payload. -/
theorem slotListCategories_list_eq (cv : QtConv) (q : MetaWeblog) (l : List QVariant)
    (rest : List QVariant) :
    slotListCategories cv q (QVariant.list l :: rest) =
      some (q.emit (Signal.listedCategories (l.map (categoryOfElement cv)))) := by
  simp [slotListCategories, QVariant.type, QVariant.toList]

/-- The result of `slotFetchPosting` on a Map payload for a pending posting. -/
theorem slotFetchPosting_map_eq (cv : QtConv) (q : MetaWeblog) (t a : Nat)
    (m : QMap String QVariant) (rest : List QVariant)
    (hp : QMap.value q.mCallMap t none = some a) :
    ∃ q' : MetaWeblog, slotFetchPosting cv q (QVariant.map m :: rest) t = some q' ∧
      q'.emitted = q.emitted ++ [Signal.fetchedPosting (some a)] := by
  obtain ⟨p, hr⟩ := readPostingFromMap_some cv (q.postings a) m
  refine ⟨((({ q with mCallMap := QMap.remove q.mCallMap t } : MetaWeblog).setPosting a
    p).setPosting a { p with mStatus := Status.Fetched }).emit
    (Signal.fetchedPosting (some a)), ?_, rfl⟩
  simp [slotFetchPosting, index_of_value_some _ _ _ hp, QVariant.type, QVariant.toMap, hr,
    MetaWeblog.setPosting]

/-- The result of `slotCreatePosting` on a String payload for a pending posting. -/
theorem slotCreatePosting_string_eq (cv : QtConv) (q : MetaWeblog) (t a : Nat)
    (s : String) (rest : List QVariant) (hp : QMap.value q.mCallMap t none = some a) :
    ∃ q' : MetaWeblog, slotCreatePosting cv q (QVariant.string s :: rest) t = some q' ∧
      q'.emitted = q.emitted ++ [Signal.createdPosting (some a)] := by
  simp [slotCreatePosting, index_of_value_some _ _ _ hp, QVariant.type, MetaWeblog.emit,
    MetaWeblog.setPosting]

/-- The three ways `slotCreateMedia` ends for a pending media object. -/
theorem slotCreateMedia_outcomes (cv : QtConv) (q : MetaWeblog) (u b : Nat) (r0 : QVariant)
    (rest : List QVariant) (hm : QMap.value q.mCallMediaMap u none = some b) :
    ∃ q' : MetaWeblog, slotCreateMedia cv q (r0 :: rest) u = some q' ∧
      (q'.emitted = q.emitted ++ [Signal.createdMedia (some b)] ∨
        (∃ msg, q'.emitted = q.emitted ++ [Signal.error ErrorType.ParsingError msg none]) ∨
        q'.emitted = q.emitted) := by
  by_cases h8 : r0.type.toNat = 8
  · by_cases hu : (QMap.value r0.toMap "url" QVariant.invalid).toString cv = ""
    · refine ⟨{ q with mCallMediaMap := QMap.remove q.mCallMediaMap u }, ?_, Or.inr (Or.inr rfl)⟩
      simp [slotCreateMedia, index_of_value_some _ _ _ hm, h8, hu]
    · refine ⟨_, by simp [slotCreateMedia, index_of_value_some _ _ _ hm, h8, hu]; rfl, ?_⟩
      exact Or.inl rfl
  · refine ⟨_, by simp [slotCreateMedia, index_of_value_some _ _ _ hm, h8]; rfl, ?_⟩
    exact Or.inr (Or.inl ⟨_, rfl⟩)

/-- C25, the claim fails for the empty list: every response handler indexes
`result[0]` without a test, so on the empty result list none of the six
handlers ends normally, also when the object of the token is pending. -/
theorem empty_result_is_not_handled :
    slotListCategories sampleConv sampleBlog [] = none ∧
    slotListRecentPostings sampleConv sampleBlog [] 5 = none ∧
    QMap.value (createPosting sampleBlog (some 0)).mCallMap 0 none = some 0 ∧
    slotFetchPosting sampleConv (createPosting sampleBlog (some 0)) [] 0 = none ∧
    slotCreatePosting sampleConv (createPosting sampleBlog (some 0)) [] 0 = none ∧
    slotModifyPosting (createPosting sampleBlog (some 0)) [] 0 = none ∧
    QMap.value (createMedia sampleBlog (some 0)).mCallMediaMap 1 none = some 0 ∧
    slotCreateMedia sampleConv (createMedia sampleBlog (some 0)) [] 1 = none :=
  ⟨rfl, rfl, rfl, rfl, rfl, rfl, rfl, rfl⟩

/-- C25 as amended. For every non-empty result list, with a posting pending
under token `t` and a media object pending under media token `u`, each response
handler reads `result[0]` and returns normally.  `slotListCategories`,
`slotFetchPosting`, `slotCreatePosting` and `slotModifyPosting` end with exactly
one signal, the completion or a ParsingError; `slotListRecentPostings` on a
List payload ends with exactly one completion; `slotCreateMedia` ends with the
completion, with a ParsingError, or without a signal. -/
theorem nonempty_result_is_handled (cv : QtConv) (q : MetaWeblog) (r0 : QVariant)
    (rest : List QVariant) (n : Int) (t a u b : Nat)
    (hp : QMap.value q.mCallMap t none = some a)
    (hm : QMap.value q.mCallMediaMap u none = some b) :
    (∃ q' : MetaWeblog, slotListCategories cv q (r0 :: rest) = some q' ∧
      ((∃ categories, q'.emitted = q.emitted ++ [Signal.listedCategories categories]) ∨
        (∃ msg, q'.emitted = q.emitted ++ [Signal.error ErrorType.ParsingError msg none]))) ∧
    (∃ q' : MetaWeblog, slotListRecentPostings cv q (r0 :: rest) n = some q' ∧
      (r0.type = QVariantType.List →
        ∃ postings, q'.emitted = q.emitted ++ [Signal.listedRecentPostings postings])) ∧
    (∃ q' : MetaWeblog, slotFetchPosting cv q (r0 :: rest) t = some q' ∧
      (q'.emitted = q.emitted ++ [Signal.fetchedPosting (some a)] ∨
        (∃ msg, q'.emitted = q.emitted ++ [Signal.error ErrorType.ParsingError msg (some a)]))) ∧
    (∃ q' : MetaWeblog, slotCreatePosting cv q (r0 :: rest) t = some q' ∧
      (q'.emitted = q.emitted ++ [Signal.createdPosting (some a)] ∨
        (∃ msg, q'.emitted = q.emitted ++ [Signal.error ErrorType.ParsingError msg (some a)]))) ∧
    (∃ q' : MetaWeblog, slotModifyPosting q (r0 :: rest) t = some q' ∧
      (q'.emitted = q.emitted ++ [Signal.modifiedPosting (some a)] ∨
        (∃ msg, q'.emitted = q.emitted ++ [Signal.error ErrorType.ParsingError msg (some a)]))) ∧
    (∃ q' : MetaWeblog, slotCreateMedia cv q (r0 :: rest) u = some q' ∧
      (q'.emitted = q.emitted ++ [Signal.createdMedia (some b)] ∨
        (∃ msg, q'.emitted = q.emitted ++ [Signal.error ErrorType.ParsingError msg none]) ∨
        q'.emitted = q.emitted)) := by
  refine ⟨?_, ?_, ?_, ?_, ?_, ?_⟩
  · cases r0 with
    | map m =>
      exact ⟨_, slotListCategories_map_eq cv q m rest, Or.inl ⟨_, rfl⟩⟩
    | list l =>
      exact ⟨_, slotListCategories_list_eq cv q l rest, Or.inl ⟨_, rfl⟩⟩
    | _ =>
      refine ⟨_, by simp [slotListCategories, QVariant.type]; rfl, ?_⟩
      exact Or.inr ⟨_, rfl⟩
  · by_cases hl : r0.type = QVariantType.List
    · obtain ⟨ps, h⟩ := listRecentLoop_silent cv r0.toList n [] q
      refine ⟨q.emit (Signal.listedRecentPostings ps), ?_, fun _ => ⟨ps, rfl⟩⟩
      simp [slotListRecentPostings, hl, h]
    · refine ⟨_, by simp [slotListRecentPostings, hl]; rfl, ?_⟩
      exact fun h => absurd h hl
  · by_cases hmap : r0.type = QVariantType.Map
    · cases r0 with
      | map m =>
        obtain ⟨q', h1, h2⟩ := slotFetchPosting_map_eq cv q t a m rest hp
        exact ⟨q', h1, Or.inl h2⟩
      | _ => simp [QVariant.type] at hmap
    · exact ⟨_, slotFetchPosting_mismatch cv q t a r0 rest hp hmap, Or.inr ⟨_, rfl⟩⟩
  · by_cases hs : r0.type = QVariantType.String
    · cases r0 with
      | string s =>
        obtain ⟨q', h1, h2⟩ := slotCreatePosting_string_eq cv q t a s rest hp
        exact ⟨q', h1, Or.inl h2⟩
      | _ => simp [QVariant.type] at hs
    · exact ⟨_, slotCreatePosting_mismatch cv q t a r0 rest hp hs, Or.inr ⟨_, rfl⟩⟩
  · by_cases hb : r0.type = QVariantType.Bool
    · refine ⟨_, by simp [slotModifyPosting, index_of_value_some _ _ _ hp, hb]; rfl, ?_⟩
      exact Or.inl rfl
    · exact ⟨_, slotModifyPosting_mismatch q t a r0 rest hp hb, Or.inr ⟨_, rfl⟩⟩
  · exact slotCreateMedia_outcomes cv q u b r0 rest hm

/-- C25 as amended, at a concrete input: a posting pending under token 0, a
media object pending under media token 1, and the result 42 for
`slotCreatePosting`. -/
theorem nonempty_result_is_handled_witness :
    QMap.value (createMedia (createPosting sampleBlog (some 0)) (some 0)).mCallMap 0 none
      = some 0 ∧
    QMap.value (createMedia (createPosting sampleBlog (some 0)) (some 0)).mCallMediaMap 1 none
      = some 0 ∧
    ∃ q' : MetaWeblog,
      slotCreatePosting sampleConv (createMedia (createPosting sampleBlog (some 0)) (some 0))
        [QVariant.string "42"] 0 = some q' ∧
      (q'.emitted = (createMedia (createPosting sampleBlog (some 0)) (some 0)).emitted
          ++ [Signal.createdPosting (some 0)] ∨
        (∃ msg, q'.emitted = (createMedia (createPosting sampleBlog (some 0)) (some 0)).emitted
          ++ [Signal.error ErrorType.ParsingError msg (some 0)])) :=
  ⟨by decide, by decide,
    (nonempty_result_is_handled sampleConv
      (createMedia (createPosting sampleBlog (some 0)) (some 0)) (QVariant.string "42") [] 5
      0 0 1 0 (by decide) (by decide)).2.2.2.1⟩

/-! ### Elements of a category list that are not maps -/

/-- C26, the claim fails: the payload is a List whose only element is the
number 3.  `slotListCategories` emits no error; it delivers one category entry
for that element, with every field empty. -/
theorem slotListCategories_non_map_element :
    ∃ q' : MetaWeblog,
      slotListCategories sampleConv sampleBlog [QVariant.list [QVariant.int 3]] = some q' ∧
      q'.emitted = [Signal.listedCategories
        [[("description", ""), ("htmlUrl", ""), ("name", ""), ("rssUrl", "")]]] :=
  ⟨_, rfl, rfl⟩

/-- C26 as amended. For every List payload `slotListCategories` emits exactly
one signal, `listedCategories`, and no error, also when elements are not Maps:
such an element is delivered as a category entry whose name, description,
htmlUrl and rssUrl are all the empty string. -/
theorem slotListCategories_list_never_fails (cv : QtConv) (q : MetaWeblog)
    (l : List QVariant) (rest : List QVariant) :
    ∃ (categories : List (QMap String String)) (q' : MetaWeblog),
      slotListCategories cv q (QVariant.list l :: rest) = some q' ∧
      q'.emitted = q.emitted ++ [Signal.listedCategories categories] ∧
      List.Forall₂
        (fun element category =>
          element.type ≠ QVariantType.Map →
          category = [("description", ""), ("htmlUrl", ""), ("name", ""), ("rssUrl", "")])
        l categories := by
  refine ⟨l.map (categoryOfElement cv), _, slotListCategories_list_eq cv q l rest, rfl, ?_⟩
  rw [List.forall₂_map_right_iff, List.forall₂_same]
  intro element _ hne
  cases element <;> first | rfl | exact absurd rfl hne

/-! ### Faults of media uploads -/

/-- C27, the code at the failing input: postings 0 and 1 are pending under post
tokens 0 and 1 and a media object is pending under media token 1.  A fault of
the media upload reaches `slotError` with id 1, which looks the id up in the
call map of the postings: the error carries posting 1, which did not originate
the failed call.  A non-Map result in `slotCreateMedia` carries no posting. -/
theorem slotError_blames_posting_for_media_fault :
    QMap.value (createMedia (createPosting (createPosting sampleBlog (some 0)) (some 1))
      (some 0)).mCallMap 1 none = some 1 ∧
    QMap.value (createMedia (createPosting (createPosting sampleBlog (some 0)) (some 1))
      (some 0)).mCallMediaMap 1 none = some 0 ∧
    (createMedia (createPosting (createPosting sampleBlog (some 0)) (some 1))
      (some 0)).calls.map (fun c => (c.method, c.id))
      = [("metaWeblog.newPost", QVariant.uint 0), ("metaWeblog.newPost", QVariant.uint 1),
        ("metaWeblog.newMediaObject", QVariant.uint 1)] ∧
    (slotError (createMedia (createPosting (createPosting sampleBlog (some 0)) (some 1))
      (some 0)) 500 "upload failed" 1).emitted
      = [Signal.error ErrorType.XmlRpc "upload failed" (some 1)] ∧
    (∃ q' : MetaWeblog,
      slotCreateMedia sampleConv (createMedia (createPosting (createPosting sampleBlog (some 0))
        (some 1)) (some 0)) [QVariant.int 3] 1 = some q' ∧
      q'.emitted = [Signal.error ErrorType.ParsingError
        "Could not read the result, not a map." none]) :=
  ⟨rfl, rfl, rfl, rfl, _, rfl, rfl⟩

/-! ### Posts and comments -/

/-- C23, the code at the failing input: comments are not allowed on the post.
After `setTrackBackAllowed( true )` the getter `isTrackBackAllowed` returns
false although the member `mTrackBackAllowed` is true, and a later
`setCommentAllowed( true )` changes what the getter returns.  In general the
getter returns the comment flag. -/
theorem isTrackBackAllowed_reads_comment_flag :
    samplePost.isCommentAllowed = false ∧
    (samplePost.setTrackBackAllowed true).isTrackBackAllowed = false ∧
    (samplePost.setTrackBackAllowed true).mTrackBackAllowed = true ∧
    ((samplePost.setTrackBackAllowed false).setCommentAllowed true).isTrackBackAllowed = true ∧
    ∀ (p : BlogPost) (b : Bool),
      (p.setTrackBackAllowed b).isTrackBackAllowed = p.isCommentAllowed ∧
      (p.setCommentAllowed b).isTrackBackAllowed = b :=
  ⟨rfl, rfl, rfl, rfl, fun _ _ => ⟨rfl, rfl⟩⟩

/-- C28. The copy-constructed post and the post after the assignment agree
with the original on every public getter of `BlogPost`, and the original is
unchanged by the assignment; the same holds for the copy and the assignment of
a `BlogComment`. -/
theorem copies_agree_on_getters (self p : BlogPost) (selfComment c : BlogComment) :
    BlogPost.sameGetters (BlogPost.copy p) p ∧
    BlogPost.sameGetters (BlogPost.assign self p).1 p ∧
    (BlogPost.assign self p).2 = p ∧
    BlogComment.sameGetters (BlogComment.copy c) c ∧
    BlogComment.sameGetters (BlogComment.assign selfComment c).1 c ∧
    (BlogComment.assign selfComment c).2 = c :=
  ⟨⟨rfl, rfl, rfl, rfl, rfl, rfl, rfl, rfl, rfl, rfl, rfl, rfl, rfl, rfl, rfl, rfl, rfl, rfl,
      rfl, rfl⟩,
    ⟨rfl, rfl, rfl, rfl, rfl, rfl, rfl, rfl, rfl, rfl, rfl, rfl, rfl, rfl, rfl, rfl, rfl, rfl,
      rfl, rfl⟩,
    rfl,
    ⟨rfl, rfl, rfl, rfl, rfl, rfl, rfl, rfl, rfl, rfl⟩,
    ⟨rfl, rfl, rfl, rfl, rfl, rfl, rfl, rfl, rfl, rfl⟩,
    rfl⟩

/-- C29. Journal round trip: the post constructed from `p.journal( b )` has the
post id, title, categories and creation date-time of `p`, status New, is not
private, and its journal id is `kblog-` followed by the url, the blog id, the
user name of `b` and the post id of `p`, separated by `-`. -/
theorem journal_round_trip (fresh p : BlogPost) (b : Blog) :
    (BlogPost.ofJournal fresh (p.journal b)).postId = p.postId ∧
    (BlogPost.ofJournal fresh (p.journal b)).title = p.title ∧
    (BlogPost.ofJournal fresh (p.journal b)).categories = p.categories ∧
    (BlogPost.ofJournal fresh (p.journal b)).creationDateTime = p.creationDateTime ∧
    (BlogPost.ofJournal fresh (p.journal b)).status = Status.New ∧
    (BlogPost.ofJournal fresh (p.journal b)).isPrivate = false ∧
    (BlogPost.ofJournal fresh (p.journal b)).journalId
      = "kblog-" ++ b.url ++ "-" ++ b.blogId ++ "-" ++ b.username ++ "-" ++ p.postId := by
  refine ⟨?_, rfl, rfl, rfl, rfl, rfl, rfl⟩
  simp only [BlogPost.postId, BlogPost.ofJournal, BlogPost.journal, Journal.customProperty,
    Journal.setCustomProperty]
  exact value_insert_self _ _ _ _

/-- C30, the code at the failing inputs.  The text `<body>hi</body>` matches at
index 0, `indexIn` returns 0, the branch is skipped and the text is returned
with its body tags.  The text `hello` has no match, `indexIn` returns -1, the
branch is taken and the text is replaced by the empty capture.  Only a match
at a positive index (here 1) gives the contents of the body. -/
theorem cleanRichText_body_condition :
    bodyIndexIn "<body>hi</body>".data = 0 ∧
    cleanRichText "<body>hi</body>" = "<body>hi</body>" ∧
    bodyIndexIn "hello".data = -1 ∧
    cleanRichText "hello" = "" ∧
    bodyIndexIn "x<body>hi</body>".data = 1 ∧
    cleanRichText "x<body>hi</body>" = "hi" := by
  decide
/-! ### MovableType -/

/-- What `createPost` does for a non-null post. -/
theorem MovableType.createPost_step (s : MovableType) (a : Nat) :
    (s.createPost (some a)).calls = s.calls ++ [MtCall.create false s.mCallCounter] ∧
    (s.createPost (some a)).emitted = s.emitted ∧
    (s.createPost (some a)).mCallCounter = uintSucc s.mCallCounter ∧
    (s.createPost (some a)).postings = s.postings ∧
    (s.createPost (some a)).resolve s.mCallCounter = some (a, !(s.postings a).mPrivate) ∧
    QMap.value (s.createPost (some a)).mPublishAfterCategories s.mCallCounter false
      = !(s.postings a).mPrivate := by
  simp [MovableType.createPost, MovableType.issue, MovableType.call, MovableType.resolve,
    value_insert_self]

/-- What `slotCreatePost` does with a string result for a pending post. -/
theorem MovableType.slotCreatePost_step (s : MovableType) (id a : Nat) (publish : Bool)
    (postId : String) (h : s.resolve id = some (a, publish)) :
    (s.slotCreatePost (MtReply.result (QVariant.string postId)) id).calls
      = s.calls ++ [MtCall.setPostCategories postId s.mCallCounter] ∧
    (s.slotCreatePost (MtReply.result (QVariant.string postId)) id).emitted = s.emitted ∧
    (s.slotCreatePost (MtReply.result (QVariant.string postId)) id).mCallCounter
      = uintSucc s.mCallCounter ∧
    ((s.slotCreatePost (MtReply.result (QVariant.string postId)) id).postings a).mPostingId
      = postId ∧
    (s.slotCreatePost (MtReply.result (QVariant.string postId)) id).resolve s.mCallCounter
      = some (a, publish) ∧
    QMap.value (s.slotCreatePost (MtReply.result (QVariant.string postId))
      id).mPublishAfterCategories s.mCallCounter false = publish := by
  simp only [MovableType.slotCreatePost, h]
  simp [MovableType.issue, MovableType.call, MovableType.resolve, MovableType.release,
    value_insert_self]

/-- What `slotSetPostCategories` does on success when the cached flag is true. -/
theorem MovableType.slotSetPostCategories_step (s : MovableType) (id a : Nat) (v : QVariant)
    (h : s.resolve id = some (a, true)) :
    (s.slotSetPostCategories (MtReply.result v) id).calls
      = s.calls ++ [MtCall.publish (s.postings a).mPostingId s.mCallCounter] ∧
    (s.slotSetPostCategories (MtReply.result v) id).emitted = s.emitted ∧
    (s.slotSetPostCategories (MtReply.result v) id).resolve s.mCallCounter = some (a, true) := by
  simp only [MovableType.slotSetPostCategories, h]
  simp [MovableType.issue, MovableType.call, MovableType.resolve, MovableType.release,
    value_insert_self]

/-- What `slotModifyPost` does with the result true for a pending post. -/
theorem MovableType.slotModifyPost_step (s : MovableType) (id a : Nat) (publish : Bool)
    (h : s.resolve id = some (a, publish)) :
    (s.slotModifyPost (MtReply.result (QVariant.bool true)) id).calls = s.calls ∧
    (s.slotModifyPost (MtReply.result (QVariant.bool true)) id).emitted
      = s.emitted ++ [Signal.createdPosting (some a)] ∧
    ((s.slotModifyPost (MtReply.result (QVariant.bool true)) id).postings a).mStatus
      = Status.Created := by
  simp only [MovableType.slotModifyPost, h]
  simp [MovableType.emit, MovableType.release]

/-- C24. MovableType chain for a post that is not private.  `createPost` issues
exactly one call, the base create call with publish = false, emits nothing and
caches the publish flag true under its token.  The response with the post id
issues exactly one more call, the category call, on the next token, to which
the publish flag is carried, and emits nothing.  The response to the category
call issues exactly one more call, the publish call, and emits nothing.  The
response true to the publish call issues no call and emits exactly one signal,
`createdPost`: three calls in strict sequence, one event after the third
response. -/
theorem movableType_create_chain (s : MovableType) (a : Nat) (postId : String) (v : QVariant)
    (hpub : (s.postings a).mPrivate = false) :
    (s.createPost (some a)).calls = s.calls ++ [MtCall.create false s.mCallCounter] ∧
    (s.createPost (some a)).emitted = s.emitted ∧
    QMap.value (s.createPost (some a)).mPublishAfterCategories s.mCallCounter false = true ∧
    ((s.createPost (some a)).slotCreatePost (MtReply.result (QVariant.string postId))
        s.mCallCounter).calls
      = s.calls ++ [MtCall.create false s.mCallCounter,
          MtCall.setPostCategories postId (uintSucc s.mCallCounter)] ∧
    ((s.createPost (some a)).slotCreatePost (MtReply.result (QVariant.string postId))
        s.mCallCounter).emitted = s.emitted ∧
    QMap.value ((s.createPost (some a)).slotCreatePost (MtReply.result (QVariant.string postId))
        s.mCallCounter).mPublishAfterCategories (uintSucc s.mCallCounter) false = true ∧
    (((s.createPost (some a)).slotCreatePost (MtReply.result (QVariant.string postId))
        s.mCallCounter).slotSetPostCategories (MtReply.result v)
        (uintSucc s.mCallCounter)).calls
      = s.calls ++ [MtCall.create false s.mCallCounter,
          MtCall.setPostCategories postId (uintSucc s.mCallCounter),
          MtCall.publish postId (uintSucc (uintSucc s.mCallCounter))] ∧
    (((s.createPost (some a)).slotCreatePost (MtReply.result (QVariant.string postId))
        s.mCallCounter).slotSetPostCategories (MtReply.result v)
        (uintSucc s.mCallCounter)).emitted = s.emitted ∧
    ((((s.createPost (some a)).slotCreatePost (MtReply.result (QVariant.string postId))
        s.mCallCounter).slotSetPostCategories (MtReply.result v)
        (uintSucc s.mCallCounter)).slotModifyPost (MtReply.result (QVariant.bool true))
        (uintSucc (uintSucc s.mCallCounter))).calls
      = s.calls ++ [MtCall.create false s.mCallCounter,
          MtCall.setPostCategories postId (uintSucc s.mCallCounter),
          MtCall.publish postId (uintSucc (uintSucc s.mCallCounter))] ∧
    ((((s.createPost (some a)).slotCreatePost (MtReply.result (QVariant.string postId))
        s.mCallCounter).slotSetPostCategories (MtReply.result v)
        (uintSucc s.mCallCounter)).slotModifyPost (MtReply.result (QVariant.bool true))
        (uintSucc (uintSucc s.mCallCounter))).emitted
      = s.emitted ++ [Signal.createdPosting (some a)] := by
  obtain ⟨a1, a2, a3, a4, a5, a6⟩ := MovableType.createPost_step s a
  rw [hpub] at a5 a6
  obtain ⟨b1, b2, b3, b4, b5, b6⟩ :=
    MovableType.slotCreatePost_step (s.createPost (some a)) s.mCallCounter a true postId a5
  rw [a3] at b1 b5 b6
  obtain ⟨c1, c2, c3⟩ := MovableType.slotSetPostCategories_step
    ((s.createPost (some a)).slotCreatePost (MtReply.result (QVariant.string postId))
      s.mCallCounter) (uintSucc s.mCallCounter) a v b5
  rw [b3, a3, b4] at c1
  rw [b3, a3] at c3
  obtain ⟨d1, d2, -⟩ := MovableType.slotModifyPost_step _ _ a true c3
  refine ⟨a1, a2, a6, ?_, ?_, b6, ?_, ?_, ?_, ?_⟩
  · rw [b1, a1]; simp
  · rw [b2, a2]
  · rw [c1, b1, a1]; simp
  · rw [c2, b2, a2]
  · rw [d1, c1, b1, a1]; simp
  · rw [d2, c2, b2, a2]

/-- C24 at a concrete input: the adapter with counter 0, the post at address 0
and the post id 42. -/
theorem movableType_create_chain_witness :
    (sampleMovableType.postings 0).mPrivate = false ∧
    ((((sampleMovableType.createPost (some 0)).slotCreatePost
        (MtReply.result (QVariant.string "42")) 0).slotSetPostCategories
        (MtReply.result (QVariant.bool true)) 1).slotModifyPost
        (MtReply.result (QVariant.bool true)) 2).calls
      = [MtCall.create false 0, MtCall.setPostCategories "42" 1, MtCall.publish "42" 2] ∧
    ((((sampleMovableType.createPost (some 0)).slotCreatePost
        (MtReply.result (QVariant.string "42")) 0).slotSetPostCategories
        (MtReply.result (QVariant.bool true)) 1).slotModifyPost
        (MtReply.result (QVariant.bool true)) 2).emitted
      = [Signal.createdPosting (some 0)] :=
  ⟨rfl,
    (movableType_create_chain sampleMovableType 0 "42" (QVariant.bool true)
      rfl).2.2.2.2.2.2.2.2.1,
    (movableType_create_chain sampleMovableType 0 "42" (QVariant.bool true)
      rfl).2.2.2.2.2.2.2.2.2⟩

end KBlog
